import Mathlib

namespace Torneo

/-- Final positions inside a pool (`PosicionGrupo` in `core/models.py`). -/
inductive PosicionGrupo where
  | PRIMERO
  | SEGUNDO
  | TERCERO
deriving DecidableEq, Repr

/-- The integer payload of the Python enum (`PosicionGrupo.value`). -/
def PosicionGrupo.value : PosicionGrupo → Nat
  | .PRIMERO => 1
  | .SEGUNDO => 2
  | .TERCERO => 3

/-- `ResultadoPartido` from `core/models.py`: a recorded group-stage match
result.  Python integers are modelled as `Int`; the optional per-set game
counts and super-tiebreak points as `Option Int`. -/
structure ResultadoPartido where
  pareja1_id : Nat
  pareja2_id : Nat
  sets_pareja1 : Int := 0
  sets_pareja2 : Int := 0
  games_set1_pareja1 : Option Int := none
  games_set1_pareja2 : Option Int := none
  games_set2_pareja1 : Option Int := none
  games_set2_pareja2 : Option Int := none
  tiebreak_pareja1 : Option Int := none
  tiebreak_pareja2 : Option Int := none
deriving DecidableEq, Repr

namespace ResultadoPartido

/-- `ResultadoPartido.esta_completo`: both regular sets must have game
counts, and on a 1–1 set split both tiebreak totals must be present. -/
def esta_completo (r : ResultadoPartido) : Bool :=
  if r.games_set1_pareja1 = none ∨ r.games_set1_pareja2 = none ∨
      r.games_set2_pareja1 = none ∨ r.games_set2_pareja2 = none then
    false
  else if r.sets_pareja1 = 1 ∧ r.sets_pareja2 = 1 then
    r.tiebreak_pareja1 ≠ none ∧ r.tiebreak_pareja2 ≠ none
  else
    true

/-- `ResultadoPartido.calcular_ganador`: id of the winning pair, if any.
On the 1–1 split the comparison `self.tiebreak_pareja1 > self.tiebreak_pareja2`
runs on values that `esta_completo` guarantees present; absent values are
compared as 0 here (the guard makes that branch unreachable with `none`). -/
def calcular_ganador (r : ResultadoPartido) : Option Nat :=
  if ¬ r.esta_completo then none
  else if r.sets_pareja1 = 2 then some r.pareja1_id
  else if r.sets_pareja2 = 2 then some r.pareja2_id
  else if r.sets_pareja1 = 1 ∧ r.sets_pareja2 = 1 then
    if r.tiebreak_pareja1.getD 0 > r.tiebreak_pareja2.getD 0 then some r.pareja1_id
    else if r.tiebreak_pareja2.getD 0 > r.tiebreak_pareja1.getD 0 then some r.pareja2_id
    else none
  else none

/-- `ResultadoPartido.total_games_pareja`: games won by the pair with the
given id, summing the per-set counts that are present. -/
def total_games_pareja (r : ResultadoPartido) (pareja_id : Nat) : Int :=
  if pareja_id = r.pareja1_id then
    r.games_set1_pareja1.getD 0 + r.games_set2_pareja1.getD 0
  else if pareja_id = r.pareja2_id then
    r.games_set1_pareja2.getD 0 + r.games_set2_pareja2.getD 0
  else 0

end ResultadoPartido

/-- `Pareja` from `core/models.py`: a competing doubles pair. -/
structure Pareja where
  id : Nat
  nombre : String
  telefono : String
  categoria : String
  franjas_disponibles : List String
  grupo_asignado : Option Nat := none
  posicion_grupo : Option PosicionGrupo := none
deriving DecidableEq, Repr

/-- `Grupo` from `core/models.py`.  The Python `resultados` dict (keyed by
the sorted id pair string) is modelled as an insertion-ordered association
list. -/
structure Grupo where
  id : Nat
  categoria : String
  parejas : List Pareja := []
  franja_horaria : Option String := none
  partidos : List (Pareja × Pareja) := []
  resultados : List (String × ResultadoPartido) := []
  score_compatibilidad : Rat := 0
deriving DecidableEq, Repr

namespace Grupo

/-- `Grupo.agregar_pareja`: append the pair (with its `grupo_asignado`
pointer set) only while the pool holds fewer than 3 pairs. -/
def agregar_pareja (g : Grupo) (p : Pareja) : Grupo :=
  if g.parejas.length < 3 then
    { g with parejas := g.parejas ++ [{ p with grupo_asignado := some g.id }] }
  else g

/-- `Grupo.esta_completo`. -/
def esta_completo (g : Grupo) : Bool :=
  g.parejas.length = 3

/-- `Grupo.generar_partidos`: the three round-robin pairings, generated only
when the pool is full. -/
def generar_partidos (g : Grupo) : Grupo :=
  match g.parejas with
  | [a, b, c] => { g with partidos := [(a, b), (a, c), (b, c)] }
  | _ => g

/-- `Grupo.todos_resultados_completos`: the pool is full and exactly 3 of
its recorded results are complete. -/
def todos_resultados_completos (g : Grupo) : Bool :=
  g.esta_completo &&
    ((g.resultados.map Prod.snd).countP (fun r => r.esta_completo)) = 3

end Grupo

/-- `EstadisticasPareja` from `core/clasificacion.py`. -/
structure EstadisticasPareja where
  pareja_id : Nat
  pareja_nombre : String
  partidos_jugados : Int := 0
  partidos_ganados : Int := 0
  partidos_perdidos : Int := 0
  sets_ganados : Int := 0
  sets_perdidos : Int := 0
  games_ganados : Int := 0
  games_perdidos : Int := 0
deriving DecidableEq, Repr

/-- Update of one entry of the `estadisticas_dict` of
`calcular_estadisticas_grupo`.  The Python dict keyed by `pareja_id` is
modelled as a list; with the pool's ids pairwise distinct (the data-model
invariant) the two representations agree. -/
def actualizarEst (l : List EstadisticasPareja) (pid : Nat)
    (f : EstadisticasPareja → EstadisticasPareja) : List EstadisticasPareja :=
  l.map fun e => if e.pareja_id = pid then f e else e

/-- The body of the `for resultado in grupo.resultados.values()` loop of
`CalculadorClasificacion.calcular_estadisticas_grupo`: incomplete results
and results with no determinable winner are skipped entirely; otherwise the
match, set and game tallies of the two pairs are updated. -/
def procesar_resultado (l : List EstadisticasPareja) (r : ResultadoPartido) :
    List EstadisticasPareja :=
  if ¬ r.esta_completo then l
  else
    match r.calcular_ganador with
    | none => l
    | some gid =>
      let p1 := r.pareja1_id
      let p2 := r.pareja2_id
      let perdedor := if gid = p1 then p2 else p1
      let l1 := actualizarEst l gid (fun e =>
        { e with partidos_jugados := e.partidos_jugados + 1,
                 partidos_ganados := e.partidos_ganados + 1 })
      let l2 := actualizarEst l1 perdedor (fun e =>
        { e with partidos_jugados := e.partidos_jugados + 1,
                 partidos_perdidos := e.partidos_perdidos + 1 })
      let l3 := actualizarEst l2 p1 (fun e =>
        { e with sets_ganados := e.sets_ganados + r.sets_pareja1,
                 sets_perdidos := e.sets_perdidos + r.sets_pareja2 })
      let l4 := actualizarEst l3 p2 (fun e =>
        { e with sets_ganados := e.sets_ganados + r.sets_pareja2,
                 sets_perdidos := e.sets_perdidos + r.sets_pareja1 })
      let games_p1 := r.total_games_pareja p1
      let games_p2 := r.total_games_pareja p2
      let l5 := actualizarEst l4 p1 (fun e =>
        { e with games_ganados := e.games_ganados + games_p1,
                 games_perdidos := e.games_perdidos + games_p2 })
      actualizarEst l5 p2 (fun e =>
        { e with games_ganados := e.games_ganados + games_p2,
                 games_perdidos := e.games_perdidos + games_p1 })

/-- `CalculadorClasificacion.calcular_estadisticas_grupo`: fresh per-pair
tallies in pool order, then one pass over the recorded results. -/
def calcular_estadisticas_grupo (g : Grupo) : List EstadisticasPareja :=
  (g.resultados.map Prod.snd).foldl procesar_resultado
    (g.parejas.map fun p => { pareja_id := p.id, pareja_nombre := p.nombre })

/-- The sort key of `CalculadorClasificacion.ordenar_parejas`:
(matches won, sets won, games won) — raw totals, not differentials. -/
def claveOrden (e : EstadisticasPareja) : Int × Int × Int :=
  (e.partidos_ganados, e.sets_ganados, e.games_ganados)

/-- Lexicographic `≤` on the sort key, as Python compares key tuples. -/
def lexLe (a b : Int × Int × Int) : Prop :=
  a.1 < b.1 ∨ (a.1 = b.1 ∧ (a.2.1 < b.2.1 ∨ (a.2.1 = b.2.1 ∧ a.2.2 ≤ b.2.2)))

/-- Strict lexicographic `<` on the sort key. -/
def lexLt (a b : Int × Int × Int) : Prop :=
  a.1 < b.1 ∨ (a.1 = b.1 ∧ (a.2.1 < b.2.1 ∨ (a.2.1 = b.2.1 ∧ a.2.2 < b.2.2)))

instance : DecidableRel lexLe := fun a b => by
  unfold lexLe; exact inferInstance

instance : DecidableRel lexLt := fun a b => by
  unfold lexLt; exact inferInstance

/-- "ranks at least as high as": the descending order used by
`sorted(..., reverse=True)` in `ordenar_parejas`. -/
def ordenMayor (a b : EstadisticasPareja) : Prop :=
  lexLe (claveOrden b) (claveOrden a)

instance : DecidableRel ordenMayor := fun a b => by
  unfold ordenMayor; exact inferInstance

instance : IsTotal EstadisticasPareja ordenMayor :=
  ⟨fun a b => by simp only [ordenMayor, lexLe, claveOrden]; omega⟩

instance : IsTrans EstadisticasPareja ordenMayor :=
  ⟨fun a b c hab hbc => by
    simp only [ordenMayor, lexLe, claveOrden] at hab hbc ⊢; omega⟩

/-- `CalculadorClasificacion.ordenar_parejas`: stable descending sort by
(matches won, sets won, games won).  Python's `sorted` is the stable sort
with respect to this total preorder, which `List.insertionSort` with
`ordenMayor` computes. -/
def ordenar_parejas (l : List EstadisticasPareja) : List EstadisticasPareja :=
  List.insertionSort ordenMayor l

/-- `CalculadorClasificacion.asignar_posiciones`: empty unless all results
are complete; otherwise the sorted pairs receive 1st/2nd/3rd in order. -/
def asignar_posiciones (g : Grupo) : List (Nat × PosicionGrupo) :=
  if ¬ g.todos_resultados_completos then []
  else
    let es := ordenar_parejas (calcular_estadisticas_grupo g)
    (es.zip [PosicionGrupo.PRIMERO, PosicionGrupo.SEGUNDO, PosicionGrupo.TERCERO]).map
      (fun ep => (ep.1.pareja_id, ep.2))

lemma map_pareja_id_actualizarEst (l : List EstadisticasPareja) (pid : Nat)
    (f : EstadisticasPareja → EstadisticasPareja)
    (hf : ∀ e, (f e).pareja_id = e.pareja_id) :
    (actualizarEst l pid f).map (·.pareja_id) = l.map (·.pareja_id) := by
  unfold actualizarEst
  rw [List.map_map]
  apply List.map_congr_left
  intro e _
  by_cases h : e.pareja_id = pid <;> simp [h, hf]

lemma map_pareja_id_procesar (l : List EstadisticasPareja) (r : ResultadoPartido) :
    (procesar_resultado l r).map (·.pareja_id) = l.map (·.pareja_id) := by
  unfold procesar_resultado
  split
  · rfl
  · split
    · rfl
    · rw [map_pareja_id_actualizarEst, map_pareja_id_actualizarEst,
        map_pareja_id_actualizarEst, map_pareja_id_actualizarEst,
        map_pareja_id_actualizarEst, map_pareja_id_actualizarEst] <;>
        exact fun e => rfl

lemma map_pareja_id_foldl (rs : List ResultadoPartido) (l : List EstadisticasPareja) :
    (rs.foldl procesar_resultado l).map (·.pareja_id) = l.map (·.pareja_id) := by
  induction rs generalizing l with
  | nil => rfl
  | cons r rs ih => rw [List.foldl_cons, ih, map_pareja_id_procesar]

/-- The tallies of `calcular_estadisticas_grupo` are exactly one entry per
pool pair, in pool order.  -/
lemma map_pareja_id_calcular (g : Grupo) :
    (calcular_estadisticas_grupo g).map (·.pareja_id) = g.parejas.map Pareja.id := by
  unfold calcular_estadisticas_grupo
  rw [map_pareja_id_foldl, List.map_map]
  rfl

lemma length_calcular (g : Grupo) :
    (calcular_estadisticas_grupo g).length = g.parejas.length := by
  have h := congrArg List.length (map_pareja_id_calcular g)
  simpa using h

lemma todos_completos_length (g : Grupo)
    (ht : g.todos_resultados_completos = true) : g.parejas.length = 3 := by
  unfold Grupo.todos_resultados_completos Grupo.esta_completo at ht
  simp only [Bool.and_eq_true, decide_eq_true_eq] at ht
  exact ht.1

lemma lexLt_not_lexLe {a b : Int × Int × Int} (h : lexLt a b) : ¬ lexLe b a := by
  simp only [lexLt, lexLe] at h ⊢
  omega

/-- Structure of a computed standings map for a pool whose results are all
complete: there is a sorted permutation `es` of the pool tallies and the
positions list pairs its ids with 1st/2nd/3rd in order. -/
lemma asignar_posiciones_structure (g : Grupo)
    (ht : g.todos_resultados_completos = true) :
    ∃ e0 e1 e2 : EstadisticasPareja,
      ordenar_parejas (calcular_estadisticas_grupo g) = [e0, e1, e2] ∧
      ([e0, e1, e2] : List _).Perm (calcular_estadisticas_grupo g) ∧
      ordenMayor e0 e1 ∧ ordenMayor e0 e2 ∧ ordenMayor e1 e2 ∧
      asignar_posiciones g =
        [(e0.pareja_id, PosicionGrupo.PRIMERO), (e1.pareja_id, PosicionGrupo.SEGUNDO),
         (e2.pareja_id, PosicionGrupo.TERCERO)] := by
  have hlen3 : (ordenar_parejas (calcular_estadisticas_grupo g)).length = 3 := by
    unfold ordenar_parejas
    rw [List.length_insertionSort, length_calcular, todos_completos_length g ht]
  obtain ⟨e0, e1, e2, hes⟩ := List.length_eq_three.mp hlen3
  refine ⟨e0, e1, e2, hes, ?_, ?_, ?_, ?_, ?_⟩
  · rw [← hes]; exact List.perm_insertionSort ordenMayor _
  · have h := List.sorted_insertionSort ordenMayor (calcular_estadisticas_grupo g)
    rw [show List.insertionSort ordenMayor (calcular_estadisticas_grupo g) =
      ordenar_parejas (calcular_estadisticas_grupo g) from rfl, hes] at h
    simp [List.sorted_cons] at h
    exact h.1.1
  · have h := List.sorted_insertionSort ordenMayor (calcular_estadisticas_grupo g)
    rw [show List.insertionSort ordenMayor (calcular_estadisticas_grupo g) =
      ordenar_parejas (calcular_estadisticas_grupo g) from rfl, hes] at h
    simp [List.sorted_cons] at h
    exact h.1.2
  · have h := List.sorted_insertionSort ordenMayor (calcular_estadisticas_grupo g)
    rw [show List.insertionSort ordenMayor (calcular_estadisticas_grupo g) =
      ordenar_parejas (calcular_estadisticas_grupo g) from rfl, hes] at h
    simp [List.sorted_cons] at h
    exact h.2
  · unfold asignar_posiciones
    rw [if_neg (by simp [ht])]
    rw [hes]
    rfl

/-- Keys of the standings map are a permutation of the pool's pair ids, and
the values are exactly 1st, 2nd, 3rd. -/
lemma asignar_posiciones_bij (g : Grupo)
    (ht : g.todos_resultados_completos = true) :
    ((asignar_posiciones g).map Prod.fst).Perm (g.parejas.map Pareja.id) ∧
    (asignar_posiciones g).map Prod.snd =
      [PosicionGrupo.PRIMERO, PosicionGrupo.SEGUNDO, PosicionGrupo.TERCERO] := by
  obtain ⟨e0, e1, e2, _, hperm, _, _, _, hpos⟩ := asignar_posiciones_structure g ht
  constructor
  · rw [hpos, ← map_pareja_id_calcular g]
    simpa using List.Perm.map (fun e => e.pareja_id) hperm
  · rw [hpos]
    rfl

/-- C1: `asignar_posiciones` returns the empty map unless all 3 of the
pool's results are complete; with 3 entrants (distinct ids) and 3 complete
results it assigns each entrant exactly one of 1st/2nd/3rd (keys are a
permutation of the pool ids, values are exactly the three positions), with
entrants ranked by descending raw totals of (matches won, sets won, games
won): a strictly larger key triple always receives a strictly better
position. -/
theorem asignar_posiciones_empty_or_bijective_ranking (g : Grupo)
    (hn : (g.parejas.map Pareja.id).Nodup) :
    (g.todos_resultados_completos = false → asignar_posiciones g = []) ∧
    (g.todos_resultados_completos = true →
      ((asignar_posiciones g).map Prod.fst).Perm (g.parejas.map Pareja.id) ∧
      (asignar_posiciones g).map Prod.snd =
        [PosicionGrupo.PRIMERO, PosicionGrupo.SEGUNDO, PosicionGrupo.TERCERO] ∧
      (∀ a b pa pb ea eb,
        (a, pa) ∈ asignar_posiciones g → (b, pb) ∈ asignar_posiciones g →
        ea ∈ calcular_estadisticas_grupo g → eb ∈ calcular_estadisticas_grupo g →
        ea.pareja_id = a → eb.pareja_id = b →
        lexLt (claveOrden eb) (claveOrden ea) → pa.value < pb.value)) := by
  constructor
  · intro hf
    unfold asignar_posiciones
    rw [if_pos (by simp [hf])]
  · intro ht
    obtain ⟨hperm, hsnd⟩ := asignar_posiciones_bij g ht
    refine ⟨hperm, hsnd, ?_⟩
    obtain ⟨e0, e1, e2, _, hpermS, h01, h02, h12, hpos⟩ :=
      asignar_posiciones_structure g ht
    have hids : (([e0, e1, e2] : List _).map (fun e => e.pareja_id)).Nodup := by
      have h1 : (([e0, e1, e2] : List _).map (fun e => e.pareja_id)).Perm
          ((calcular_estadisticas_grupo g).map (fun e => e.pareja_id)) :=
        hpermS.map _
      rw [map_pareja_id_calcular] at h1
      exact h1.nodup_iff.mpr hn
    have hinj := List.inj_on_of_nodup_map hids
    intro a b pa pb ea eb hma hmb hea heb hia hib hlt
    have hea' : ea ∈ ([e0, e1, e2] : List _) := hpermS.mem_iff.mpr hea
    have heb' : eb ∈ ([e0, e1, e2] : List _) := hpermS.mem_iff.mpr heb
    rw [hpos] at hma hmb
    simp only [List.mem_cons, List.not_mem_nil, or_false, Prod.mk.injEq] at hma hmb
    have hirr : ∀ x : Int × Int × Int, ¬ lexLt x x := by
      intro x; simp only [lexLt]; omega
    have hmem0 : e0 ∈ ([e0, e1, e2] : List _) := by simp
    have hmem1 : e1 ∈ ([e0, e1, e2] : List _) := by simp
    have hmem2 : e2 ∈ ([e0, e1, e2] : List _) := by simp
    have habs : ∀ x y : EstadisticasPareja, ordenMayor x y →
        lexLt (claveOrden x) (claveOrden y) → False := by
      intro x y hxy hlt'
      exact lexLt_not_lexLe hlt' hxy
    rcases hma with ⟨ha, hpa⟩ | ⟨ha, hpa⟩ | ⟨ha, hpa⟩ <;>
      rcases hmb with ⟨hb, hpb⟩ | ⟨hb, hpb⟩ | ⟨hb, hpb⟩ <;> subst hpa <;> subst hpb
    · rw [hinj hea' hmem0 (hia.trans ha),
        hinj heb' hmem0 (hib.trans hb)] at hlt
      exact absurd hlt (hirr _)
    · decide
    · decide
    · rw [hinj hea' hmem1 (hia.trans ha),
        hinj heb' hmem0 (hib.trans hb)] at hlt
      exact absurd hlt (fun h => habs e0 e1 h01 h)
    · rw [hinj hea' hmem1 (hia.trans ha),
        hinj heb' hmem1 (hib.trans hb)] at hlt
      exact absurd hlt (hirr _)
    · decide
    · rw [hinj hea' hmem2 (hia.trans ha),
        hinj heb' hmem0 (hib.trans hb)] at hlt
      exact absurd hlt (fun h => habs e0 e2 h02 h)
    · rw [hinj hea' hmem2 (hia.trans ha),
        hinj heb' hmem1 (hib.trans hb)] at hlt
      exact absurd hlt (fun h => habs e1 e2 h12 h)
    · rw [hinj hea' hmem2 (hia.trans ha),
        hinj heb' hmem2 (hib.trans hb)] at hlt
      exact absurd hlt (hirr _)

/-- A pair used by the concrete witnesses. -/
def parejaEjemplo (i : Nat) (n : String) : Pareja :=
  { id := i, nombre := n, telefono := "600", categoria := "Cuarta",
    franjas_disponibles := ["Jueves 18:00"] }

/-- A complete 2–0 result between pairs `i` and `j` (6-4, 6-4). -/
def resultadoEjemplo (i j : Nat) : ResultadoPartido :=
  { pareja1_id := i, pareja2_id := j, sets_pareja1 := 2, sets_pareja2 := 0,
    games_set1_pareja1 := some 6, games_set1_pareja2 := some 4,
    games_set2_pareja1 := some 6, games_set2_pareja2 := some 4 }

/-- A complete but drawn result: 1–1 in sets with equal tiebreak totals. -/
def resultadoEmpate : ResultadoPartido :=
  { pareja1_id := 1, pareja2_id := 2, sets_pareja1 := 1, sets_pareja2 := 1,
    games_set1_pareja1 := some 6, games_set1_pareja2 := some 4,
    games_set2_pareja1 := some 4, games_set2_pareja2 := some 6,
    tiebreak_pareja1 := some 10, tiebreak_pareja2 := some 10 }

/-- A full pool with three decisive complete results. -/
def grupoEjemplo : Grupo :=
  { id := 1, categoria := "Cuarta",
    parejas := [parejaEjemplo 1 "A", parejaEjemplo 2 "B", parejaEjemplo 3 "C"],
    resultados := [("1-2", resultadoEjemplo 1 2), ("1-3", resultadoEjemplo 1 3),
                   ("2-3", resultadoEjemplo 2 3)] }

/-- A full pool whose 1-vs-2 result is complete but drawn. -/
def grupoEjemploEmpate : Grupo :=
  { id := 2, categoria := "Cuarta",
    parejas := [parejaEjemplo 1 "A", parejaEjemplo 2 "B", parejaEjemplo 3 "C"],
    resultados := [("1-2", resultadoEmpate), ("1-3", resultadoEjemplo 1 3),
                   ("2-3", resultadoEjemplo 2 3)] }

/-- Witness for C1 at a concrete full pool with all results complete. -/
theorem asignar_posiciones_empty_or_bijective_ranking_witness :
    (grupoEjemplo.parejas.map Pareja.id).Nodup ∧
    grupoEjemplo.todos_resultados_completos = true ∧
    ((asignar_posiciones grupoEjemplo).map Prod.fst).Perm
      (grupoEjemplo.parejas.map Pareja.id) :=
  ⟨by decide, by decide,
    ((asignar_posiciones_empty_or_bijective_ranking grupoEjemplo
      (by decide)).2 (by decide)).1⟩

lemma ganador_none_of_empate (r : ResultadoPartido)
    (h1 : r.sets_pareja1 = 1) (h2 : r.sets_pareja2 = 1)
    (ht : r.tiebreak_pareja1 = r.tiebreak_pareja2) :
    r.calcular_ganador = none := by
  unfold ResultadoPartido.calcular_ganador
  split
  · rfl
  · rw [if_neg (by rw [h1]; decide), if_neg (by rw [h2]; decide),
      if_pos ⟨h1, h2⟩, if_neg (by rw [ht]; exact lt_irrefl _),
      if_neg (by rw [ht]; exact lt_irrefl _)]

/-- C10: a complete but drawn result (1–1 sets, equal tiebreak totals, so
no determinable winner) is skipped entirely by the statistics aggregation —
it changes no tally at all — and a pool whose 3 recorded results are all
complete with one of them drawn still has 1st/2nd/3rd assigned to its three
entrants. -/
theorem empate_skipped_standings_still_assigned :
    (∀ (l : List EstadisticasPareja) (r : ResultadoPartido),
      r.esta_completo = true → r.sets_pareja1 = 1 → r.sets_pareja2 = 1 →
      r.tiebreak_pareja1 = r.tiebreak_pareja2 → procesar_resultado l r = l) ∧
    (∀ g : Grupo, g.todos_resultados_completos = true →
      (∃ kr, kr ∈ g.resultados ∧ (kr.2).esta_completo = true ∧
        kr.2.sets_pareja1 = 1 ∧ kr.2.sets_pareja2 = 1 ∧
        kr.2.tiebreak_pareja1 = kr.2.tiebreak_pareja2) →
      ((asignar_posiciones g).map Prod.fst).Perm (g.parejas.map Pareja.id) ∧
      (asignar_posiciones g).map Prod.snd =
        [PosicionGrupo.PRIMERO, PosicionGrupo.SEGUNDO, PosicionGrupo.TERCERO]) := by
  constructor
  · intro l r hc h1 h2 ht
    unfold procesar_resultado
    rw [ganador_none_of_empate r h1 h2 ht]
    simp [hc]
  · intro g ht _
    exact asignar_posiciones_bij g ht

/-- Witness for C10: the drawn result changes nothing, and the pool with
the drawn 1-vs-2 match still receives all three positions. -/
theorem empate_skipped_standings_still_assigned_witness :
    procesar_resultado [] resultadoEmpate = [] ∧
    (asignar_posiciones grupoEjemploEmpate).map Prod.snd =
      [PosicionGrupo.PRIMERO, PosicionGrupo.SEGUNDO, PosicionGrupo.TERCERO] :=
  ⟨empate_skipped_standings_still_assigned.1 [] resultadoEmpate
      (by decide) (by decide) (by decide) (by decide),
    (empate_skipped_standings_still_assigned.2 grupoEjemploEmpate (by decide)
      ⟨("1-2", resultadoEmpate), by decide, by decide, by decide, by decide,
        by decide⟩).2⟩

/-- C7: for a complete result the winner is the pair with 2 sets won, or on
a 1–1 split the pair with strictly more tiebreak points; with equal
tiebreak totals there is no winner; and any returned winner id is one of
the result's two referenced pair ids. -/
theorem calcular_ganador_cases (r : ResultadoPartido) (hc : r.esta_completo = true) :
    (r.sets_pareja1 = 2 → r.calcular_ganador = some r.pareja1_id) ∧
    (r.sets_pareja1 ≠ 2 → r.sets_pareja2 = 2 → r.calcular_ganador = some r.pareja2_id) ∧
    (∀ t1 t2 : Int, r.sets_pareja1 = 1 → r.sets_pareja2 = 1 →
      r.tiebreak_pareja1 = some t1 → r.tiebreak_pareja2 = some t2 →
      ((t1 > t2 → r.calcular_ganador = some r.pareja1_id) ∧
       (t2 > t1 → r.calcular_ganador = some r.pareja2_id) ∧
       (t1 = t2 → r.calcular_ganador = none))) ∧
    (∀ w, r.calcular_ganador = some w → w = r.pareja1_id ∨ w = r.pareja2_id) := by
  refine ⟨?_, ?_, ?_, ?_⟩
  · intro h2
    unfold ResultadoPartido.calcular_ganador
    rw [if_neg (by simp [hc]), if_pos h2]
  · intro hne h2
    unfold ResultadoPartido.calcular_ganador
    rw [if_neg (by simp [hc]), if_neg hne, if_pos h2]
  · intro t1 t2 h1 h2 ht1 ht2
    refine ⟨?_, ?_, ?_⟩
    · intro hgt
      unfold ResultadoPartido.calcular_ganador
      rw [if_neg (by simp [hc]), if_neg (by rw [h1]; decide),
        if_neg (by rw [h2]; decide), if_pos ⟨h1, h2⟩,
        if_pos (by rw [ht1, ht2]; exact hgt)]
    · intro hgt
      unfold ResultadoPartido.calcular_ganador
      rw [if_neg (by simp [hc]), if_neg (by rw [h1]; decide),
        if_neg (by rw [h2]; decide), if_pos ⟨h1, h2⟩,
        if_neg (by rw [ht1, ht2]; exact not_lt.mpr (le_of_lt hgt)),
        if_pos (by rw [ht1, ht2]; exact hgt)]
    · intro heq
      exact ganador_none_of_empate r h1 h2 (by rw [ht1, ht2, heq])
  · intro w hw
    unfold ResultadoPartido.calcular_ganador at hw
    split_ifs at hw <;> simp_all

/-- Witness for C7 at a concrete complete 2–0 result. -/
theorem calcular_ganador_cases_witness :
    (resultadoEjemplo 1 2).esta_completo = true ∧
    (resultadoEjemplo 1 2).calcular_ganador = some 1 :=
  ⟨by decide,
    (calcular_ganador_cases (resultadoEjemplo 1 2) (by decide)).1 (by decide)⟩

/-- `FaseFinal` from `core/models.py`. -/
inductive FaseFinal where
  | OCTAVOS
  | CUARTOS
  | SEMIFINAL
  | FINAL
deriving DecidableEq, Repr

/-- `PartidoFinal` from `core/models.py`.  `slot1_info`/`slot2_info` are the
attributes `_generar_con_cuartos` adds dynamically, absent (`none`) until
assigned.  `numero_partido` is 1-based; the source only ever stores values
`≥ 1` in it. -/
structure PartidoFinal where
  id : String
  fase : FaseFinal
  pareja1 : Option Pareja := none
  pareja2 : Option Pareja := none
  ganador : Option Pareja := none
  numero_partido : Nat := 1
  slot1_info : Option String := none
  slot2_info : Option String := none
deriving DecidableEq, Repr

/-- `FixtureFinales` from `core/models.py`. -/
structure FixtureFinales where
  categoria : String
  octavos : List PartidoFinal := []
  cuartos : List PartidoFinal := []
  semifinales : List PartidoFinal := []
  final : Option PartidoFinal := none
deriving DecidableEq, Repr

/-- Linear search of one phase list by match id, returning the position and
the found match: the `for partido in fixture.<fase>` loops of
`actualizar_ganador_partido`. -/
def buscarAux (l : List PartidoFinal) (pid : String) : Option (Nat × PartidoFinal) :=
  match l with
  | [] => none
  | p :: rest =>
    if p.id = pid then some (0, p)
    else (buscarAux rest pid).map (fun ip => (ip.1 + 1, ip.2))

/-- The search order of `actualizar_ganador_partido`: octavos, then cuartos,
then semifinales, then the final. -/
def buscar_partido (f : FixtureFinales) (pid : String) :
    Option (FaseFinal × Nat × PartidoFinal) :=
  match buscarAux f.octavos pid with
  | some ip => some (FaseFinal.OCTAVOS, ip.1, ip.2)
  | none =>
    match buscarAux f.cuartos pid with
    | some ip => some (FaseFinal.CUARTOS, ip.1, ip.2)
    | none =>
      match buscarAux f.semifinales pid with
      | some ip => some (FaseFinal.SEMIFINAL, ip.1, ip.2)
      | none =>
        match f.final with
        | some fin => if fin.id = pid then some (FaseFinal.FINAL, 0, fin) else none
        | none => none

/-- Writing the (mutated) found match back into its phase list: the
functional counterpart of Python's in-place object mutation. -/
def setPartido (f : FixtureFinales) (fase : FaseFinal) (idx : Nat)
    (p : PartidoFinal) : FixtureFinales :=
  match fase with
  | FaseFinal.OCTAVOS => { f with octavos := f.octavos.set idx p }
  | FaseFinal.CUARTOS => { f with cuartos := f.cuartos.set idx p }
  | FaseFinal.SEMIFINAL => { f with semifinales := f.semifinales.set idx p }
  | FaseFinal.FINAL => { f with final := some p }

/-- The winner-slot check of `actualizar_ganador_partido`: the winner must
be the occupant of a filled slot, `pareja1` checked first. -/
def ganadorSlot (p : PartidoFinal) (gid : Nat) : Option Pareja :=
  match p.pareja1 with
  | some a =>
    if a.id = gid then some a
    else
      match p.pareja2 with
      | some b => if b.id = gid then some b else none
      | none => none
  | none =>
    match p.pareja2 with
    | some b => if b.id = gid then some b else none
    | none => none

/-- `GeneradorFixtureFinales._propagar_ganador`: forward the winner of match
`n` (1-based) into the next phase — quarterfinal/semifinal index
`(n-1)/2`, slot 1 for odd `n` and slot 2 for even `n`; semifinal 1 fills
the final's slot 1 and any other semifinal fills slot 2. -/
def propagar_ganador (f : FixtureFinales) (p : PartidoFinal) (fase : FaseFinal) :
    FixtureFinales :=
  match p.ganador with
  | none => f
  | some ganador =>
    let n := p.numero_partido
    match fase with
    | FaseFinal.OCTAVOS =>
      let idx := (n - 1) / 2
      match f.cuartos[idx]? with
      | some cuarto =>
        let cuarto' :=
          if n % 2 = 1 then { cuarto with pareja1 := some ganador }
          else { cuarto with pareja2 := some ganador }
        { f with cuartos := f.cuartos.set idx cuarto' }
      | none => f
    | FaseFinal.CUARTOS =>
      let idx := (n - 1) / 2
      match f.semifinales[idx]? with
      | some semi =>
        let semi' :=
          if n % 2 = 1 then { semi with pareja1 := some ganador }
          else { semi with pareja2 := some ganador }
        { f with semifinales := f.semifinales.set idx semi' }
      | none => f
    | FaseFinal.SEMIFINAL =>
      match f.final with
      | some fin =>
        if n = 1 then { f with final := some { fin with pareja1 := some ganador } }
        else { f with final := some { fin with pareja2 := some ganador } }
      | none => f
    | FaseFinal.FINAL => f

/-- `GeneradorFixtureFinales.actualizar_ganador_partido`: locate the match,
check the claimed winner against its filled slots, record it and propagate.
All failures return `(false, ·)` with the fixture untouched, exactly as the
Python version returns `False` before any mutation. -/
def actualizar_ganador_partido (f : FixtureFinales) (pid : String) (gid : Nat) :
    Bool × FixtureFinales :=
  match buscar_partido f pid with
  | none => (false, f)
  | some (fase, idx, p) =>
    match ganadorSlot p gid with
    | none => (false, f)
    | some w =>
      let p' := { p with ganador := some w }
      let f1 := setPartido f fase idx p'
      (true, propagar_ganador f1 p' fase)

/-- `setPartido` on one phase leaves the other phases untouched. -/
lemma setPartido_octavos_cuartos (f : FixtureFinales) (idx : Nat) (p : PartidoFinal) :
    (setPartido f FaseFinal.OCTAVOS idx p).cuartos = f.cuartos := rfl

lemma setPartido_cuartos_semifinales (f : FixtureFinales) (idx : Nat) (p : PartidoFinal) :
    (setPartido f FaseFinal.CUARTOS idx p).semifinales = f.semifinales := rfl

lemma setPartido_semifinal_final (f : FixtureFinales) (idx : Nat) (p : PartidoFinal) :
    (setPartido f FaseFinal.SEMIFINAL idx p).final = f.final := rfl

/-- Effect of propagation from a Round-of-16 match on the quarterfinals. -/
lemma propagar_octavos_spec (f : FixtureFinales) (p : PartidoFinal) (w : Pareja)
    (hw : p.ganador = some w) :
    (propagar_ganador f p FaseFinal.OCTAVOS).cuartos.length = f.cuartos.length ∧
    ∀ c, (propagar_ganador f p FaseFinal.OCTAVOS).cuartos[(p.numero_partido - 1) / 2]? =
        some c →
      (p.numero_partido % 2 = 1 → c.pareja1 = some w) ∧
      (p.numero_partido % 2 = 0 → c.pareja2 = some w) := by
  unfold propagar_ganador
  rw [hw]
  dsimp only
  cases hc : f.cuartos[(p.numero_partido - 1) / 2]? with
  | none =>
    dsimp only
    refine ⟨rfl, fun c hcc => ?_⟩
    rw [hc] at hcc
    exact absurd hcc (by simp)
  | some cuarto =>
    have hlt := (List.getElem?_eq_some.mp hc).1
    dsimp only
    refine ⟨List.length_set _ _ _, fun c hcc => ?_⟩
    rw [List.getElem?_set_self hlt] at hcc
    obtain rfl : _ = c := Option.some.inj hcc
    by_cases hpar : p.numero_partido % 2 = 1
    · rw [if_pos hpar]
      exact ⟨fun _ => rfl, fun h0 => absurd (h0 ▸ hpar) (by omega)⟩
    · rw [if_neg hpar]
      exact ⟨fun h1 => absurd h1 hpar, fun _ => rfl⟩

/-- Effect of propagation from a quarterfinal on the semifinals. -/
lemma propagar_cuartos_spec (f : FixtureFinales) (p : PartidoFinal) (w : Pareja)
    (hw : p.ganador = some w) :
    (propagar_ganador f p FaseFinal.CUARTOS).semifinales.length = f.semifinales.length ∧
    ∀ c, (propagar_ganador f p FaseFinal.CUARTOS).semifinales[(p.numero_partido - 1) / 2]? =
        some c →
      (p.numero_partido % 2 = 1 → c.pareja1 = some w) ∧
      (p.numero_partido % 2 = 0 → c.pareja2 = some w) := by
  unfold propagar_ganador
  rw [hw]
  dsimp only
  cases hc : f.semifinales[(p.numero_partido - 1) / 2]? with
  | none =>
    dsimp only
    refine ⟨rfl, fun c hcc => ?_⟩
    rw [hc] at hcc
    exact absurd hcc (by simp)
  | some semi =>
    have hlt := (List.getElem?_eq_some.mp hc).1
    dsimp only
    refine ⟨List.length_set _ _ _, fun c hcc => ?_⟩
    rw [List.getElem?_set_self hlt] at hcc
    obtain rfl : _ = c := Option.some.inj hcc
    by_cases hpar : p.numero_partido % 2 = 1
    · rw [if_pos hpar]
      exact ⟨fun _ => rfl, fun h0 => absurd (h0 ▸ hpar) (by omega)⟩
    · rw [if_neg hpar]
      exact ⟨fun h1 => absurd h1 hpar, fun _ => rfl⟩

/-- Effect of propagation from a semifinal on the final. -/
lemma propagar_semifinal_spec (f : FixtureFinales) (p : PartidoFinal) (w : Pareja)
    (hw : p.ganador = some w) (fin0 : PartidoFinal) (hfin : f.final = some fin0) :
    ∃ fin1, (propagar_ganador f p FaseFinal.SEMIFINAL).final = some fin1 ∧
      (p.numero_partido = 1 → fin1.pareja1 = some w) ∧
      (p.numero_partido ≠ 1 → fin1.pareja2 = some w) := by
  unfold propagar_ganador
  rw [hw]
  dsimp only
  rw [hfin]
  dsimp only
  by_cases h1 : p.numero_partido = 1
  · rw [if_pos h1]
    exact ⟨_, rfl, fun _ => rfl, fun hne => absurd h1 hne⟩
  · rw [if_neg h1]
    exact ⟨_, rfl, fun h1' => absurd h1' h1, fun _ => rfl⟩

/-- C2: whenever `actualizar_ganador_partido` succeeds, the propagation has
already happened in the returned fixture (same call): a Round-of-16 match
`n` (1-based) writes its winner into quarterfinal index `(n-1)/2`, slot 1
for odd `n` and slot 2 for even `n`; quarterfinal winners fill semifinals by
the same rule; semifinal 1 fills the final's slot 1 and any other semifinal
number fills slot 2. -/
theorem actualizar_ganador_propagates (f : FixtureFinales) (pid : String)
    (gid : Nat) (f' : FixtureFinales)
    (h : actualizar_ganador_partido f pid gid = (true, f')) :
    ∃ fase idx p w,
      buscar_partido f pid = some (fase, idx, p) ∧ ganadorSlot p gid = some w ∧
      (fase = FaseFinal.OCTAVOS → 1 ≤ p.numero_partido →
        f'.cuartos.length = f.cuartos.length ∧
        ∀ c, f'.cuartos[(p.numero_partido - 1) / 2]? = some c →
          (p.numero_partido % 2 = 1 → c.pareja1 = some w) ∧
          (p.numero_partido % 2 = 0 → c.pareja2 = some w)) ∧
      (fase = FaseFinal.CUARTOS → 1 ≤ p.numero_partido →
        f'.semifinales.length = f.semifinales.length ∧
        ∀ c, f'.semifinales[(p.numero_partido - 1) / 2]? = some c →
          (p.numero_partido % 2 = 1 → c.pareja1 = some w) ∧
          (p.numero_partido % 2 = 0 → c.pareja2 = some w)) ∧
      (fase = FaseFinal.SEMIFINAL → ∀ fin0, f.final = some fin0 →
        ∃ fin1, f'.final = some fin1 ∧
          (p.numero_partido = 1 → fin1.pareja1 = some w) ∧
          (p.numero_partido ≠ 1 → fin1.pareja2 = some w)) := by
  unfold actualizar_ganador_partido at h
  cases hb : buscar_partido f pid with
  | none =>
    rw [hb] at h
    exact absurd (congrArg Prod.fst h) (by simp)
  | some v =>
    obtain ⟨fase, idx, p⟩ := v
    rw [hb] at h
    dsimp only at h
    cases hg : ganadorSlot p gid with
    | none =>
      rw [hg] at h
      exact absurd (congrArg Prod.fst h) (by simp)
    | some w =>
      rw [hg] at h
      dsimp only at h
      have hf' : propagar_ganador (setPartido f fase idx { p with ganador := some w })
          { p with ganador := some w } fase = f' := congrArg Prod.snd h
      refine ⟨fase, idx, p, w, rfl, hg, ?_, ?_, ?_⟩
      · rintro rfl hn
        rw [← hf']
        have := propagar_octavos_spec
          (setPartido f FaseFinal.OCTAVOS idx { p with ganador := some w })
          { p with ganador := some w } w rfl
        rw [setPartido_octavos_cuartos] at this
        exact this
      · rintro rfl hn
        rw [← hf']
        have := propagar_cuartos_spec
          (setPartido f FaseFinal.CUARTOS idx { p with ganador := some w })
          { p with ganador := some w } w rfl
        rw [setPartido_cuartos_semifinales] at this
        exact this
      · rintro rfl fin0 hfin
        rw [← hf']
        exact propagar_semifinal_spec
          (setPartido f FaseFinal.SEMIFINAL idx { p with ganador := some w })
          { p with ganador := some w } w rfl fin0
          ((setPartido_semifinal_final f idx _).trans hfin)

/-- A concrete quarterfinal-stage fixture used by the bracket witnesses:
two populated quarterfinals, two empty ones, two empty semifinals, an empty
final. -/
def fixtureEjemplo : FixtureFinales :=
  { categoria := "Cuarta",
    octavos := [],
    cuartos :=
      [{ id := "Cuarta_cuartos_1", fase := FaseFinal.CUARTOS, numero_partido := 1,
         pareja1 := some (parejaEjemplo 1 "A"), pareja2 := some (parejaEjemplo 2 "B") },
       { id := "Cuarta_cuartos_2", fase := FaseFinal.CUARTOS, numero_partido := 2,
         pareja1 := some (parejaEjemplo 3 "C"), pareja2 := some (parejaEjemplo 4 "D") },
       { id := "Cuarta_cuartos_3", fase := FaseFinal.CUARTOS, numero_partido := 3 },
       { id := "Cuarta_cuartos_4", fase := FaseFinal.CUARTOS, numero_partido := 4 }],
    semifinales :=
      [{ id := "Cuarta_semi_1", fase := FaseFinal.SEMIFINAL, numero_partido := 1 },
       { id := "Cuarta_semi_2", fase := FaseFinal.SEMIFINAL, numero_partido := 2 }],
    final := some { id := "Cuarta_final", fase := FaseFinal.FINAL, numero_partido := 1 } }

/-- Witness for C2: recording pair 1 as winner of quarterfinal 1 of the
concrete fixture succeeds and has filled semifinal 1 slot 1. -/
theorem actualizar_ganador_propagates_witness :
    ∃ fase idx p w,
      buscar_partido fixtureEjemplo "Cuarta_cuartos_1" = some (fase, idx, p) ∧
      ganadorSlot p 1 = some w ∧
      (fase = FaseFinal.OCTAVOS → 1 ≤ p.numero_partido →
        (actualizar_ganador_partido fixtureEjemplo "Cuarta_cuartos_1" 1).2.cuartos.length =
          fixtureEjemplo.cuartos.length ∧
        ∀ c, (actualizar_ganador_partido fixtureEjemplo
            "Cuarta_cuartos_1" 1).2.cuartos[(p.numero_partido - 1) / 2]? = some c →
          (p.numero_partido % 2 = 1 → c.pareja1 = some w) ∧
          (p.numero_partido % 2 = 0 → c.pareja2 = some w)) ∧
      (fase = FaseFinal.CUARTOS → 1 ≤ p.numero_partido →
        (actualizar_ganador_partido fixtureEjemplo
            "Cuarta_cuartos_1" 1).2.semifinales.length =
          fixtureEjemplo.semifinales.length ∧
        ∀ c, (actualizar_ganador_partido fixtureEjemplo
            "Cuarta_cuartos_1" 1).2.semifinales[(p.numero_partido - 1) / 2]? = some c →
          (p.numero_partido % 2 = 1 → c.pareja1 = some w) ∧
          (p.numero_partido % 2 = 0 → c.pareja2 = some w)) ∧
      (fase = FaseFinal.SEMIFINAL → ∀ fin0, fixtureEjemplo.final = some fin0 →
        ∃ fin1, (actualizar_ganador_partido fixtureEjemplo
            "Cuarta_cuartos_1" 1).2.final = some fin1 ∧
          (p.numero_partido = 1 → fin1.pareja1 = some w) ∧
          (p.numero_partido ≠ 1 → fin1.pareja2 = some w)) :=
  actualizar_ganador_propagates fixtureEjemplo "Cuarta_cuartos_1" 1
    (actualizar_ganador_partido fixtureEjemplo "Cuarta_cuartos_1" 1).2 (by decide)

/-- `ganadorSlot` fails exactly when the claimed winner occupies no filled
slot of the match. -/
lemma ganadorSlot_eq_none_iff (p : PartidoFinal) (gid : Nat) :
    ganadorSlot p gid = none ↔
      ¬((∃ a, p.pareja1 = some a ∧ a.id = gid) ∨
        (∃ b, p.pareja2 = some b ∧ b.id = gid)) := by
  unfold ganadorSlot
  cases hp1 : p.pareja1 with
  | none =>
    cases hp2 : p.pareja2 with
    | none => simp
    | some b => by_cases hb : b.id = gid <;> simp [hb]
  | some a =>
    cases hp2 : p.pareja2 with
    | none => by_cases ha : a.id = gid <;> simp [ha]
    | some b =>
      by_cases ha : a.id = gid <;> by_cases hb : b.id = gid <;> simp [ha, hb]

/-- C3: `actualizar_ganador_partido` fails exactly when the match id is not
in the bracket or the claimed winner id occupies no filled slot of the
found match; every failure is the explicit value `false` and leaves the
fixture completely unchanged. -/
theorem actualizar_ganador_failure_iff (f : FixtureFinales) (pid : String)
    (gid : Nat) :
    ((actualizar_ganador_partido f pid gid).1 = false ↔
      buscar_partido f pid = none ∨
      ∃ fase idx p, buscar_partido f pid = some (fase, idx, p) ∧
        ¬((∃ a, p.pareja1 = some a ∧ a.id = gid) ∨
          (∃ b, p.pareja2 = some b ∧ b.id = gid))) ∧
    ((actualizar_ganador_partido f pid gid).1 = false →
      (actualizar_ganador_partido f pid gid).2 = f) := by
  unfold actualizar_ganador_partido
  cases hb : buscar_partido f pid with
  | none =>
    exact ⟨⟨fun _ => Or.inl rfl, fun _ => rfl⟩, fun _ => rfl⟩
  | some v =>
    obtain ⟨fase, idx, p⟩ := v
    dsimp only
    cases hg : ganadorSlot p gid with
    | none =>
      refine ⟨⟨fun _ => Or.inr ⟨fase, idx, p, rfl, (ganadorSlot_eq_none_iff p gid).mp hg⟩,
        fun _ => rfl⟩, fun _ => rfl⟩
    | some w =>
      dsimp only
      constructor
      · constructor
        · intro hfalse
          exact absurd hfalse (by simp)
        · rintro (hnone | ⟨fase', idx', p', heq, hno⟩)
          · exact absurd hnone (by simp)
          · obtain ⟨rfl, rfl, rfl⟩ :
                fase = fase' ∧ idx = idx' ∧ p = p' := by
              have := Option.some.inj heq
              exact ⟨congrArg Prod.fst this,
                congrArg Prod.fst (congrArg Prod.snd this),
                congrArg Prod.snd (congrArg Prod.snd this)⟩
            rw [(ganadorSlot_eq_none_iff p gid).mpr hno] at hg
            exact absurd hg (by simp)
      · intro hfalse
        exact absurd hfalse (by simp)

/-- Witness for C3: an unknown match id fails and leaves the concrete
fixture unchanged. -/
theorem actualizar_ganador_failure_iff_witness :
    (actualizar_ganador_partido fixtureEjemplo "no_such_match" 1).1 = false ∧
    (actualizar_ganador_partido fixtureEjemplo "no_such_match" 1).2 = fixtureEjemplo :=
  ⟨by decide,
    (actualizar_ganador_failure_iff fixtureEjemplo "no_such_match" 1).2 (by decide)⟩

/-- `GeneradorFixtureFinales.contar_grupos_completos`. -/
def contar_grupos_completos (grupos : List Grupo) : Nat :=
  grupos.countP (fun g => g.todos_resultados_completos)

/-- The `{1: [...], 2: [...], 3: [...]}` dict of
`obtener_clasificados_por_posicion`; each entry keeps the pair together
with its `grupo_id`. -/
structure Clasificados where
  primeros : List (Pareja × Nat) := []
  segundos : List (Pareja × Nat) := []
  terceros : List (Pareja × Nat) := []
deriving DecidableEq, Repr

/-- Dict lookup `posiciones[pareja.id]` on the standings map. -/
def lookupPos : List (Nat × PosicionGrupo) → Nat → Option PosicionGrupo
  | [], _ => none
  | (i, p) :: rest, j => if i = j then some p else lookupPos rest j

/-- Appending one pair to the bucket of its position. -/
def clasifAppend (cl : Clasificados) (g : Grupo) (p : Pareja) : Clasificados :=
  match lookupPos (asignar_posiciones g) p.id with
  | none => cl
  | some pos =>
    let p' := { p with posicion_grupo := some pos }
    match pos with
    | PosicionGrupo.PRIMERO => { cl with primeros := cl.primeros ++ [(p', g.id)] }
    | PosicionGrupo.SEGUNDO => { cl with segundos := cl.segundos ++ [(p', g.id)] }
    | PosicionGrupo.TERCERO => { cl with terceros := cl.terceros ++ [(p', g.id)] }

/-- Processing one pool inside `obtener_clasificados_por_posicion`:
incomplete pools are skipped; each classified pair of a complete pool is
appended (in pool order) to the bucket of its computed position. -/
def clasifAdd (cl : Clasificados) (g : Grupo) : Clasificados :=
  if ¬ g.todos_resultados_completos then cl
  else g.parejas.foldl (fun cl' p => clasifAppend cl' g p) cl

/-- `GeneradorFixtureFinales.obtener_clasificados_por_posicion`. -/
def obtener_clasificados_por_posicion (grupos : List Grupo) : Clasificados :=
  grupos.foldl clasifAdd {}

/-- A `{'pos': ..., 'grupo_idx': ...}` slot reference of
`_generar_con_cuartos`. -/
structure SlotRef where
  pos : Nat
  grupo_idx : Nat
deriving DecidableEq, Repr

/-- The `slots` table of `_generar_con_cuartos`, selected by the TOTAL
number of pools of the category (an entry is `none` for the
`{'slot1': None, 'slot2': None}` rows). -/
def slotsCuartos (num_grupos_total : Nat) : List (Option (SlotRef × SlotRef)) :=
  if num_grupos_total = 1 then
    [some (⟨2, 0⟩, ⟨3, 0⟩), none, none, none]
  else if num_grupos_total = 2 then
    [some (⟨1, 0⟩, ⟨2, 1⟩), some (⟨1, 1⟩, ⟨2, 0⟩), none, none]
  else if num_grupos_total = 3 then
    [some (⟨1, 0⟩, ⟨2, 1⟩), some (⟨1, 1⟩, ⟨2, 2⟩), some (⟨1, 2⟩, ⟨2, 0⟩), none]
  else
    [some (⟨1, 0⟩, ⟨2, 2⟩), some (⟨1, 3⟩, ⟨2, 1⟩), some (⟨1, 1⟩, ⟨2, 3⟩),
      some (⟨1, 2⟩, ⟨2, 0⟩)]

/-- `primeros if pos == 1 else (segundos if pos == 2 else terceros)`. -/
def elegirLista (cl : Clasificados) (pos : Nat) : List (Pareja × Nat) :=
  if pos = 1 then cl.primeros else if pos = 2 then cl.segundos else cl.terceros

/-- `chr(65 + grupo_idx)` — the letter naming a pool. -/
def letraGrupo (idx : Nat) : String :=
  String.singleton (Char.ofNat (65 + idx))

/-- The placeholder text `"{pos}° Grupo {letter}"`. -/
def infoSlot (pos idx : Nat) : String :=
  toString pos ++ "° Grupo " ++ letraGrupo idx

/-- Construction of quarterfinal match `i` (0-based) from its slot
configuration in `_generar_con_cuartos`. -/
def partidoCuartos (categoria : String) (cl : Clasificados) (i : Nat)
    (cfg : Option (SlotRef × SlotRef)) : PartidoFinal :=
  let base : PartidoFinal :=
    { id := categoria ++ "_cuartos_" ++ toString (i + 1), fase := FaseFinal.CUARTOS,
      numero_partido := i + 1 }
  match cfg with
  | none => { base with slot1_info := some "Vacío", slot2_info := some "Vacío" }
  | some (s1, s2) =>
    let base1 :=
      match (elegirLista cl s1.pos)[s1.grupo_idx]? with
      | some e =>
        { base with pareja1 := some e.1,
                    slot1_info := some (infoSlot s1.pos s1.grupo_idx) }
      | none => { base with slot1_info := some (infoSlot s1.pos s1.grupo_idx) }
    match (elegirLista cl s2.pos)[s2.grupo_idx]? with
    | some e =>
      { base1 with pareja2 := some e.1,
                   slot2_info := some (infoSlot s2.pos s2.grupo_idx) }
    | none => { base1 with slot2_info := some (infoSlot s2.pos s2.grupo_idx) }

/-- `GeneradorFixtureFinales._generar_con_cuartos`. -/
def generar_con_cuartos (categoria : String) (cl : Clasificados)
    (num_grupos_total : Nat) : FixtureFinales :=
  { categoria := categoria,
    octavos := [],
    cuartos := (slotsCuartos num_grupos_total).enum.map
      (fun ic => partidoCuartos categoria cl ic.1 ic.2),
    semifinales := (List.range 2).map (fun i =>
      let partido : PartidoFinal :=
        { id := categoria ++ "_semi_" ++ toString (i + 1), fase := FaseFinal.SEMIFINAL,
          numero_partido := i + 1 }
      if num_grupos_total = 1 ∧ i = 0 ∧ 0 < cl.primeros.length then
        match cl.primeros[0]? with
        | some e =>
          { partido with pareja1 := some e.1,
                         slot1_info := some "1° Grupo A (pasa directo)",
                         slot2_info := some "Ganador Cuartos 1" }
        | none => partido
      else partido),
    final := some { id := categoria ++ "_final", fase := FaseFinal.FINAL,
                    numero_partido := 1 } }

/-- `GeneradorFixtureFinales._generar_con_octavos`. -/
def generar_con_octavos (categoria : String) (cl : Clasificados) : FixtureFinales :=
  { categoria := categoria,
    octavos := (List.range 8).map (fun i =>
      { id := categoria ++ "_octavos_" ++ toString (i + 1), fase := FaseFinal.OCTAVOS,
        numero_partido := i + 1,
        pareja1 := (cl.primeros[i]?).map Prod.fst,
        pareja2 := (cl.segundos[i]?).map Prod.fst }),
    cuartos := (List.range 4).map (fun i =>
      { id := categoria ++ "_cuartos_" ++ toString (i + 1), fase := FaseFinal.CUARTOS,
        numero_partido := i + 1 }),
    semifinales := (List.range 2).map (fun i =>
      { id := categoria ++ "_semi_" ++ toString (i + 1), fase := FaseFinal.SEMIFINAL,
        numero_partido := i + 1 }),
    final := some { id := categoria ++ "_final", fase := FaseFinal.FINAL,
                    numero_partido := 1 } }

/-- `GeneradorFixtureFinales._generar_solo_semifinales`. -/
def generar_solo_semifinales (categoria : String) (cl : Clasificados) : FixtureFinales :=
  { categoria := categoria,
    octavos := [],
    cuartos := [],
    semifinales := (List.range 2).map (fun i =>
      { id := categoria ++ "_semi_" ++ toString (i + 1), fase := FaseFinal.SEMIFINAL,
        numero_partido := i + 1,
        pareja1 := (cl.primeros[i]?).map Prod.fst,
        pareja2 := (cl.segundos[i]?).map Prod.fst }),
    final := some { id := categoria ++ "_final", fase := FaseFinal.FINAL,
                    numero_partido := 1 } }

/-- `GeneradorFixtureFinales.generar_fixture`: empty input falls back to a
bare semifinal skeleton; otherwise the topology is selected by the number
of pools of the category (8+ → with Round-of-16, otherwise always the
quarterfinal skeleton).  The Python return type is `Optional` but a fixture
is always returned. -/
def generar_fixture (categoria : String) (grupos : List Grupo) : FixtureFinales :=
  if grupos = [] then generar_solo_semifinales categoria {}
  else
    let grupos_categoria := grupos.filter (fun g => g.categoria = categoria)
    let num_grupos := grupos_categoria.length
    let clasificados := obtener_clasificados_por_posicion grupos_categoria
    if num_grupos ≥ 8 then generar_con_octavos categoria clasificados
    else generar_con_cuartos categoria clasificados num_grupos

/-- The pairs of a pool landing in the bucket of one position, in pool
order. -/
def selPos (g : Grupo) (parejas : List Pareja) (pos : PosicionGrupo) :
    List (Pareja × Nat) :=
  (parejas.filter (fun p => lookupPos (asignar_posiciones g) p.id = some pos)).map
    (fun p => ({ p with posicion_grupo := some pos }, g.id))

lemma foldl_clasifAppend (g : Grupo) (parejas : List Pareja) (cl : Clasificados) :
    parejas.foldl (fun cl' p => clasifAppend cl' g p) cl =
      { primeros := cl.primeros ++ selPos g parejas PosicionGrupo.PRIMERO,
        segundos := cl.segundos ++ selPos g parejas PosicionGrupo.SEGUNDO,
        terceros := cl.terceros ++ selPos g parejas PosicionGrupo.TERCERO } := by
  induction parejas generalizing cl with
  | nil => simp [selPos]
  | cons p ps ih =>
    rw [List.foldl_cons, ih]
    unfold clasifAppend
    cases hl : lookupPos (asignar_posiciones g) p.id with
    | none =>
      simp only [selPos, List.filter_cons]
      rw [if_neg (by simp [hl]), if_neg (by simp [hl]), if_neg (by simp [hl])]
    | some pos =>
      cases pos with
      | PRIMERO =>
        simp only [selPos, List.filter_cons]
        rw [if_pos (by simp [hl]), if_neg (by simp [hl]), if_neg (by simp [hl])]
        simp [selPos]
      | SEGUNDO =>
        simp only [selPos, List.filter_cons]
        rw [if_neg (by simp [hl]), if_pos (by simp [hl]), if_neg (by simp [hl])]
        simp [selPos]
      | TERCERO =>
        simp only [selPos, List.filter_cons]
        rw [if_neg (by simp [hl]), if_neg (by simp [hl]), if_pos (by simp [hl])]
        simp [selPos]

lemma lookupPos_three (a b c v : Nat) :
    lookupPos [(a, PosicionGrupo.PRIMERO), (b, PosicionGrupo.SEGUNDO),
        (c, PosicionGrupo.TERCERO)] v =
      if a = v then some PosicionGrupo.PRIMERO
      else if b = v then some PosicionGrupo.SEGUNDO
      else if c = v then some PosicionGrupo.TERCERO
      else none := rfl

/-- In a list of pairs with pairwise distinct ids, filtering by one present
id yields exactly its owner. -/
lemma filter_id_singleton {l : List Pareja} (hn : (l.map Pareja.id).Nodup)
    {q : Pareja} (hq : q ∈ l) (v : Nat) (hv : q.id = v) :
    l.filter (fun p => decide (p.id = v)) = [q] := by
  induction l with
  | nil => cases hq
  | cons h t ih =>
    simp only [List.map_cons, List.nodup_cons] at hn
    rcases List.mem_cons.mp hq with rfl | hq'
    · rw [List.filter_cons_of_pos (by simp [hv])]
      have ht0 : t.filter (fun p => decide (p.id = v)) = [] := by
        rw [List.filter_eq_nil_iff]
        intro p hp hpv
        exact hn.1 (by
          rw [show q.id = p.id from by
            rw [hv]; exact (of_decide_eq_true hpv).symm]
          exact List.mem_map_of_mem _ hp)
      rw [ht0]
    · have hhv : ¬ h.id = v := by
        intro he
        exact hn.1 (by
          rw [show h.id = q.id from by rw [he, hv]]
          exact List.mem_map_of_mem _ hq')
      rw [List.filter_cons_of_neg (by simp [hhv])]
      exact ih hn.2 hq'

/-- Processing one complete pool appends exactly one pair to each bucket:
its 1st, its 2nd, its 3rd. -/
lemma clasifAdd_complete (cl : Clasificados) (g : Grupo)
    (ht : g.todos_resultados_completos = true)
    (hn : (g.parejas.map Pareja.id).Nodup) :
    ∃ q1 q2 q3 : Pareja,
      q1 ∈ g.parejas ∧ q2 ∈ g.parejas ∧ q3 ∈ g.parejas ∧
      (q1.id, PosicionGrupo.PRIMERO) ∈ asignar_posiciones g ∧
      (q2.id, PosicionGrupo.SEGUNDO) ∈ asignar_posiciones g ∧
      (q3.id, PosicionGrupo.TERCERO) ∈ asignar_posiciones g ∧
      clasifAdd cl g =
        { primeros := cl.primeros ++
            [({ q1 with posicion_grupo := some PosicionGrupo.PRIMERO }, g.id)],
          segundos := cl.segundos ++
            [({ q2 with posicion_grupo := some PosicionGrupo.SEGUNDO }, g.id)],
          terceros := cl.terceros ++
            [({ q3 with posicion_grupo := some PosicionGrupo.TERCERO }, g.id)] } := by
  obtain ⟨e0, e1, e2, _, _, _, _, _, hpos⟩ := asignar_posiciones_structure g ht
  have hperm : ([e0.pareja_id, e1.pareja_id, e2.pareja_id] : List Nat).Perm
      (g.parejas.map Pareja.id) := by
    have h := (asignar_posiciones_bij g ht).1
    rw [hpos] at h
    simpa using h
  have hnodE : ([e0.pareja_id, e1.pareja_id, e2.pareja_id] : List Nat).Nodup :=
    hperm.nodup_iff.mpr hn
  obtain ⟨q1, hq1mem, hq1id⟩ : ∃ q ∈ g.parejas, q.id = e0.pareja_id := by
    have : e0.pareja_id ∈ g.parejas.map Pareja.id := hperm.subset (by simp)
    simpa using this
  obtain ⟨q2, hq2mem, hq2id⟩ : ∃ q ∈ g.parejas, q.id = e1.pareja_id := by
    have : e1.pareja_id ∈ g.parejas.map Pareja.id := hperm.subset (by simp)
    simpa using this
  obtain ⟨q3, hq3mem, hq3id⟩ : ∃ q ∈ g.parejas, q.id = e2.pareja_id := by
    have : e2.pareja_id ∈ g.parejas.map Pareja.id := hperm.subset (by simp)
    simpa using this
  have hne01 : e0.pareja_id ≠ e1.pareja_id := by
    intro h
    rw [h] at hnodE
    simp at hnodE
  have hne02 : e0.pareja_id ≠ e2.pareja_id := by
    intro h
    rw [h] at hnodE
    simp at hnodE
  have hne12 : e1.pareja_id ≠ e2.pareja_id := by
    intro h
    rw [h] at hnodE
    simp at hnodE
  refine ⟨q1, q2, q3, hq1mem, hq2mem, hq3mem, ?_, ?_, ?_, ?_⟩
  · rw [hpos, hq1id]; simp
  · rw [hpos, hq2id]; simp
  · rw [hpos, hq3id]; simp
  · have hiff1 : ∀ p : Pareja,
        (lookupPos (asignar_posiciones g) p.id = some PosicionGrupo.PRIMERO) ↔
          p.id = e0.pareja_id := by
      intro p
      rw [hpos, lookupPos_three]
      split_ifs with h0 h1 h2
      · exact iff_of_true rfl h0.symm
      · exact iff_of_false (by simp) (fun h => h0 h.symm)
      · exact iff_of_false (by simp) (fun h => h0 h.symm)
      · exact iff_of_false (by simp) (fun h => h0 h.symm)
    have hiff2 : ∀ p : Pareja,
        (lookupPos (asignar_posiciones g) p.id = some PosicionGrupo.SEGUNDO) ↔
          p.id = e1.pareja_id := by
      intro p
      rw [hpos, lookupPos_three]
      split_ifs with h0 h1 h2
      · exact iff_of_false (by simp) (fun h => hne01 (h0.trans h))
      · exact iff_of_true rfl h1.symm
      · exact iff_of_false (by simp) (fun h => h1 h.symm)
      · exact iff_of_false (by simp) (fun h => h1 h.symm)
    have hiff3 : ∀ p : Pareja,
        (lookupPos (asignar_posiciones g) p.id = some PosicionGrupo.TERCERO) ↔
          p.id = e2.pareja_id := by
      intro p
      rw [hpos, lookupPos_three]
      split_ifs with h0 h1 h2
      · exact iff_of_false (by simp) (fun h => hne02 (h0.trans h))
      · exact iff_of_false (by simp) (fun h => hne12 (h1.trans h))
      · exact iff_of_true rfl h2.symm
      · exact iff_of_false (by simp) (fun h => h2 h.symm)
    have hsel1 : selPos g g.parejas PosicionGrupo.PRIMERO =
        [({ q1 with posicion_grupo := some PosicionGrupo.PRIMERO }, g.id)] := by
      unfold selPos
      rw [List.filter_congr (fun p _ => decide_eq_decide.mpr (hiff1 p)),
        filter_id_singleton hn hq1mem e0.pareja_id hq1id]
      rfl
    have hsel2 : selPos g g.parejas PosicionGrupo.SEGUNDO =
        [({ q2 with posicion_grupo := some PosicionGrupo.SEGUNDO }, g.id)] := by
      unfold selPos
      rw [List.filter_congr (fun p _ => decide_eq_decide.mpr (hiff2 p)),
        filter_id_singleton hn hq2mem e1.pareja_id hq2id]
      rfl
    have hsel3 : selPos g g.parejas PosicionGrupo.TERCERO =
        [({ q3 with posicion_grupo := some PosicionGrupo.TERCERO }, g.id)] := by
      unfold selPos
      rw [List.filter_congr (fun p _ => decide_eq_decide.mpr (hiff3 p)),
        filter_id_singleton hn hq3mem e2.pareja_id hq3id]
      rfl
    unfold clasifAdd
    rw [if_neg (by simp [ht]), foldl_clasifAppend, hsel1, hsel2, hsel3]

/-- C8: for a category with exactly 2 pools, both with complete standings,
the generated bracket has no Round-of-16, exactly 4 quarterfinal matches of
which the first two are populated cross-pool (1st of A vs 2nd of B, 1st of
B vs 2nd of A) and the last two empty, 2 empty semifinal placeholders and
1 empty final placeholder. -/
theorem generar_fixture_dos_grupos (categoria : String) (grupos : List Grupo)
    (gA gB : Grupo)
    (hfil : grupos.filter (fun g => g.categoria = categoria) = [gA, gB])
    (htA : gA.todos_resultados_completos = true)
    (htB : gB.todos_resultados_completos = true)
    (hnA : (gA.parejas.map Pareja.id).Nodup)
    (hnB : (gB.parejas.map Pareja.id).Nodup) :
    (generar_fixture categoria grupos).octavos = [] ∧
    (generar_fixture categoria grupos).cuartos.length = 4 ∧
    (∃ c0 pa pb, (generar_fixture categoria grupos).cuartos[0]? = some c0 ∧
      c0.pareja1 = some pa ∧ c0.pareja2 = some pb ∧
      (pa.id, PosicionGrupo.PRIMERO) ∈ asignar_posiciones gA ∧
      pa.id ∈ gA.parejas.map Pareja.id ∧
      (pb.id, PosicionGrupo.SEGUNDO) ∈ asignar_posiciones gB ∧
      pb.id ∈ gB.parejas.map Pareja.id) ∧
    (∃ c1 pa pb, (generar_fixture categoria grupos).cuartos[1]? = some c1 ∧
      c1.pareja1 = some pa ∧ c1.pareja2 = some pb ∧
      (pa.id, PosicionGrupo.PRIMERO) ∈ asignar_posiciones gB ∧
      pa.id ∈ gB.parejas.map Pareja.id ∧
      (pb.id, PosicionGrupo.SEGUNDO) ∈ asignar_posiciones gA ∧
      pb.id ∈ gA.parejas.map Pareja.id) ∧
    (∃ c2, (generar_fixture categoria grupos).cuartos[2]? = some c2 ∧
      c2.pareja1 = none ∧ c2.pareja2 = none ∧ c2.ganador = none) ∧
    (∃ c3, (generar_fixture categoria grupos).cuartos[3]? = some c3 ∧
      c3.pareja1 = none ∧ c3.pareja2 = none ∧ c3.ganador = none) ∧
    (generar_fixture categoria grupos).semifinales.length = 2 ∧
    (∀ s ∈ (generar_fixture categoria grupos).semifinales,
      s.pareja1 = none ∧ s.pareja2 = none ∧ s.ganador = none) ∧
    (∃ fin0, (generar_fixture categoria grupos).final = some fin0 ∧
      fin0.pareja1 = none ∧ fin0.pareja2 = none ∧ fin0.ganador = none) := by
  have hne : grupos ≠ [] := by
    intro h
    rw [h] at hfil
    simp at hfil
  obtain ⟨qA1, qA2, qA3, hA1m, hA2m, hA3m, hA1p, hA2p, hA3p, hAeq⟩ :=
    clasifAdd_complete {} gA htA hnA
  obtain ⟨qB1, qB2, qB3, hB1m, hB2m, hB3m, hB1p, hB2p, hB3p, hBeq⟩ :=
    clasifAdd_complete (clasifAdd {} gA) gB htB hnB
  have hcl : obtener_clasificados_por_posicion [gA, gB] =
      { primeros := [({ qA1 with posicion_grupo := some PosicionGrupo.PRIMERO }, gA.id),
                     ({ qB1 with posicion_grupo := some PosicionGrupo.PRIMERO }, gB.id)],
        segundos := [({ qA2 with posicion_grupo := some PosicionGrupo.SEGUNDO }, gA.id),
                     ({ qB2 with posicion_grupo := some PosicionGrupo.SEGUNDO }, gB.id)],
        terceros := [({ qA3 with posicion_grupo := some PosicionGrupo.TERCERO }, gA.id),
                     ({ qB3 with posicion_grupo := some PosicionGrupo.TERCERO }, gB.id)] } := by
    show List.foldl clasifAdd {} [gA, gB] = _
    rw [List.foldl_cons, List.foldl_cons, List.foldl_nil, hBeq, hAeq]
    rfl
  have hgen : generar_fixture categoria grupos =
      generar_con_cuartos categoria (obtener_clasificados_por_posicion [gA, gB]) 2 := by
    unfold generar_fixture
    rw [if_neg hne, hfil]
    rfl
  rw [hgen, hcl]
  refine ⟨rfl, rfl, ?_, ?_, ?_, ?_, rfl, ?_, ?_⟩
  · refine ⟨_, { qA1 with posicion_grupo := some PosicionGrupo.PRIMERO },
      { qB2 with posicion_grupo := some PosicionGrupo.SEGUNDO },
      rfl, ?_, ?_, hA1p,
      show qA1.id ∈ gA.parejas.map Pareja.id from List.mem_map_of_mem _ hA1m,
      hB2p,
      show qB2.id ∈ gB.parejas.map Pareja.id from List.mem_map_of_mem _ hB2m⟩ <;> rfl
  · refine ⟨_, { qB1 with posicion_grupo := some PosicionGrupo.PRIMERO },
      { qA2 with posicion_grupo := some PosicionGrupo.SEGUNDO },
      rfl, ?_, ?_, hB1p,
      show qB1.id ∈ gB.parejas.map Pareja.id from List.mem_map_of_mem _ hB1m,
      hA2p,
      show qA2.id ∈ gA.parejas.map Pareja.id from List.mem_map_of_mem _ hA2m⟩ <;> rfl
  · exact ⟨_, rfl, rfl, rfl, rfl⟩
  · exact ⟨_, rfl, rfl, rfl, rfl⟩
  · intro s hs
    rcases List.mem_cons.mp hs with rfl | hs'
    · exact ⟨rfl, rfl, rfl⟩
    · rcases List.mem_cons.mp hs' with rfl | hs''
      · exact ⟨rfl, rfl, rfl⟩
      · cases hs''
  · exact ⟨_, rfl, rfl, rfl, rfl⟩

/-- A second full pool in the same category, pairs 4, 5, 6. -/
def grupoEjemploB : Grupo :=
  { id := 2, categoria := "Cuarta",
    parejas := [parejaEjemplo 4 "D", parejaEjemplo 5 "E", parejaEjemplo 6 "F"],
    resultados := [("4-5", resultadoEjemplo 4 5), ("4-6", resultadoEjemplo 4 6),
                   ("5-6", resultadoEjemplo 5 6)] }

/-- Witness for C8 at two concrete complete pools of one category. -/
theorem generar_fixture_dos_grupos_witness :
    (generar_fixture "Cuarta" [grupoEjemplo, grupoEjemploB]).cuartos.length = 4 ∧
    (generar_fixture "Cuarta" [grupoEjemplo, grupoEjemploB]).semifinales.length = 2 :=
  ⟨(generar_fixture_dos_grupos "Cuarta" [grupoEjemplo, grupoEjemploB]
      grupoEjemplo grupoEjemploB (by decide) (by decide) (by decide)
      (by decide) (by decide)).2.1,
   (generar_fixture_dos_grupos "Cuarta" [grupoEjemplo, grupoEjemploB]
      grupoEjemplo grupoEjemploB (by decide) (by decide) (by decide)
      (by decide) (by decide)).2.2.2.2.2.2.1⟩

/-- `franja.split(' ')[0] if ' ' in franja else ''`: the calendar-day prefix
of a slot label. -/
def dia (s : String) : String :=
  if s.toList.contains ' ' then String.mk (s.toList.takeWhile (fun c => c ≠ ' '))
  else ""

/-- `set(f.split(' ')[0] for f in franjas_pareja if ' ' in f)`: the days on
which a pair has some slot. -/
def diasDe (franjas : List String) : List String :=
  (franjas.filter (fun f => f.toList.contains ' ')).map dia

/-- The per-pair contribution of `_calcular_compatibilidad`'s scoring loop:
1.0 for the exact slot, 0.5 for a slot on the same (non-empty) day, 0.0
otherwise. -/
def contribucion (candidata : String) (franjas : List String) : Rat :=
  if candidata ∈ franjas then 1
  else if dia candidata ≠ "" ∧ dia candidata ∈ diasDe franjas then 1 / 2
  else 0

/-- The summed score of one candidate slot over the three availability
lists. -/
def scoreFranja (candidata : String) (f1 f2 f3 : List String) : Rat :=
  contribucion candidata f1 + contribucion candidata f2 + contribucion candidata f3

/-- The `for franja_candidata in todas_franjas` best-tracking loop:
start at `(0.0, None)`, replace on strictly larger score. -/
def mejorFranja (cands : List String) (f1 f2 f3 : List String) : Rat × Option String :=
  cands.foldl (fun acc c =>
    let score := scoreFranja c f1 f2 f3
    if score > acc.1 then (score, some c) else acc) (0, none)

/-- `AlgoritmoGrupos._calcular_compatibilidad`.  Python's sets are modelled
by the underlying lists: every check the function makes on them is a
membership test, and the arbitrary set-iteration order is modelled by list
order (the claims proved below depend only on membership-level facts). -/
def calcular_compatibilidad (parejas : List Pareja) : Rat × Option String :=
  match parejas with
  | [p1, p2, p3] =>
    let f1 := p1.franjas_disponibles
    let f2 := p2.franjas_disponibles
    let f3 := p3.franjas_disponibles
    match f1.filter (fun s => decide (s ∈ f2 ∧ s ∈ f3)) with
    | c :: _ => (3, some c)
    | [] => mejorFranja (f1 ++ f2 ++ f3) f1 f2 f3
  | _ => (0, none)

/-- `AlgoritmoGrupos._crear_grupo` with the freshly incremented group id
passed explicitly (Python increments `self.contador_grupos` and uses it). -/
def crear_grupo (id : Nat) (parejas : List Pareja) (categoria : String)
    (franja : Option String) (score : Rat) : Grupo :=
  let g : Grupo :=
    { id := id, categoria := categoria, franja_horaria := franja,
      score_compatibilidad := score }
  (parejas.foldl Grupo.agregar_pareja g).generar_partidos

/-- The inner `for combo in itertools.combinations(...)` selection of the
greedy fallback: best score strictly above the running best, starting at
-1. -/
def elegirMejorCombo (disponibles : List Pareja) :
    Option (List Pareja) × Rat × Option String :=
  (List.sublistsLen 3 disponibles).foldl (fun acc combo =>
    let sf := calcular_compatibilidad combo
    if sf.1 > acc.2.1 then (some combo, sf.1, sf.2) else acc) (none, -1, none)

/-- Removal of the chosen pairs (`remove`/`not in combo`, which compare
`Pareja` by id). -/
def quitarCombo (disponibles combo : List Pareja) : List Pareja :=
  disponibles.filter (fun p => decide (∀ q ∈ combo, ¬ q.id = p.id))

/-- The greedy `while len(parejas_disponibles) >= 3` loop of
`_formar_grupos_categoria`, with the group counter threaded and fuel
bounding the number of iterations (each iteration removes 3 pairs, so
`disponibles.length` fuel always suffices). -/
def greedyLoop : Nat → List Pareja → String → Nat → List Grupo × List Pareja × Nat
  | 0, disponibles, _, contador => ([], disponibles, contador)
  | fuel + 1, disponibles, categoria, contador =>
    if disponibles.length ≥ 3 then
      match elegirMejorCombo disponibles with
      | (some combo, score, franja) =>
        if score > 0 then
          let grupo := crear_grupo (contador + 1) combo categoria franja score
          let rest := quitarCombo disponibles combo
          let r := greedyLoop fuel rest categoria (contador + 1)
          (grupo :: r.1, r.2.1, r.2.2)
        else ([], disponibles, contador)
      | (none, _, _) => ([], disponibles, contador)
    else ([], disponibles, contador)

/-- The mutable best-solution state captured by `_buscar_distribucion_optima`
(`mejor_score_total`, `mejor_grupos`, `mejor_sin_asignar`) together with the
group counter. -/
structure BTState where
  mejor_score_total : Rat := -1
  mejor_grupos : Option (List Grupo) := none
  mejor_sin_asignar : Option (List Pareja) := none
  contador : Nat := 0
deriving Repr

/-- Recording a finished configuration when it beats the best so far. -/
def registrar (st : BTState) (grupos : List Grupo) (restantes : List Pareja)
    (score : Rat) : BTState :=
  if score > st.mejor_score_total then
    { st with mejor_score_total := score, mejor_grupos := some grupos,
              mejor_sin_asignar := some restantes }
  else st

/-- Scored candidate triples with zero-score triples discarded. -/
def combosScored (restantes : List Pareja) :
    List (Rat × Option String × List Pareja) :=
  (List.sublistsLen 3 restantes).filterMap (fun combo =>
    let sf := calcular_compatibilidad combo
    if sf.1 > 0 then some (sf.1, sf.2, combo) else none)

/-- "ranks at least as high": the descending order of
`combinaciones_scores.sort(reverse=True, key=lambda x: x[0])`. -/
def comboGe (a b : Rat × Option String × List Pareja) : Prop := b.1 ≤ a.1

instance : DecidableRel comboGe := fun a b => inferInstanceAs (Decidable (b.1 ≤ a.1))

/-- The stable descending sort of the scored candidates. -/
def ordenarCombos (l : List (Rat × Option String × List Pareja)) :
    List (Rat × Option String × List Pareja) :=
  List.insertionSort comboGe l

/-- The progressive exploration bound of `_buscar_distribucion_optima`. -/
def maxCombos (restantes_len num_combos : Nat) : Nat :=
  if restantes_len ≤ 9 then num_combos
  else if restantes_len ≤ 12 then min 20 num_combos
  else min 15 num_combos

/-- The recursive `backtrack` of `_buscar_distribucion_optima`: record at the
base cases, prune when even a perfect remaining score cannot beat the best,
otherwise explore a bounded prefix of the score-sorted candidate triples.
`fuel` bounds the recursion depth (every recursive call removes 3 pairs, so
`parejas.length + 1` always suffices). -/
def backtrack (num_grupos_max : Nat) (categoria : String) :
    Nat → List Pareja → List Grupo → Rat → Nat → BTState → BTState
  | 0, _, _, _, _, st => st
  | fuel + 1, restantes, grupos_actuales, score_acum, formados, st =>
    if restantes.length < 3 then registrar st grupos_actuales restantes score_acum
    else if formados ≥ num_grupos_max then
      registrar st grupos_actuales restantes score_acum
    else if score_acum + ((restantes.length / 3 : Nat) : Rat) * 3 ≤
        st.mejor_score_total then st
    else
      let combos := ordenarCombos (combosScored restantes)
      (combos.take (maxCombos restantes.length combos.length)).foldl (fun st' c =>
        let grupo := crear_grupo (st'.contador + 1) c.2.2 categoria c.2.1 c.1
        let nuevas := quitarCombo restantes c.2.2
        backtrack num_grupos_max categoria fuel nuevas (grupos_actuales ++ [grupo])
          (score_acum + c.1) (formados + 1) { st' with contador := st'.contador + 1 })
        st

/-- `AlgoritmoGrupos._buscar_distribucion_optima`: run the backtracking from
the full pair list and return the best configuration found, if any, plus
the final group counter. -/
def buscar_distribucion_optima (parejas : List Pareja) (categoria : String)
    (contador : Nat) : Option (List Grupo × List Pareja) × Nat :=
  let st := backtrack (parejas.length / 3) categoria (parejas.length + 1) parejas
    [] 0 0 { contador := contador }
  match st.mejor_grupos, st.mejor_sin_asignar with
  | some gs, some sa => (some (gs, sa), st.contador)
  | _, _ => (none, st.contador)

/-- `AlgoritmoGrupos._formar_grupos_categoria`: fewer than 3 pairs means no
pools; at 2–6 possible pools use the optimal search (falling back to the
greedy loop when it records nothing); otherwise the greedy loop.  The final
group counter is returned alongside. -/
def formar_grupos_categoria (parejas : List Pareja) (categoria : String)
    (contador : Nat) : List Grupo × List Pareja × Nat :=
  if parejas.length < 3 then ([], parejas, contador)
  else
    let num_grupos_posibles := parejas.length / 3
    if 2 ≤ num_grupos_posibles ∧ num_grupos_posibles ≤ 6 then
      match buscar_distribucion_optima parejas categoria contador with
      | (some (gs, sa), contador') => (gs, sa, contador')
      | (none, contador') => greedyLoop parejas.length parejas categoria contador'
    else greedyLoop parejas.length parejas categoria contador

lemma filter_idmem_eq_combo {combo disponibles : List Pareja}
    (hsub : combo.Sublist disponibles) :
    (disponibles.map Pareja.id).Nodup →
    disponibles.filter (fun p => decide (∃ q ∈ combo, q.id = p.id)) = combo := by
  induction hsub with
  | slnil => intro _; rfl
  | cons a hs ih =>
    intro hn
    simp only [List.map_cons, List.nodup_cons] at hn
    rw [List.filter_cons_of_neg (by
      simp only [decide_eq_true_eq, not_exists]
      push_neg
      intro q hq hqa
      exact hn.1 (hqa ▸ List.mem_map_of_mem Pareja.id (hs.subset hq)))]
    exact ih hn.2
  | cons₂ a hs ih =>
    intro hn
    simp only [List.map_cons, List.nodup_cons] at hn
    rw [List.filter_cons_of_pos (by
      simp only [decide_eq_true_eq]
      exact ⟨a, List.mem_cons_self a _, rfl⟩)]
    congr 1
    rw [List.filter_congr (fun p hp => ?_)]
    · exact ih hn.2
    · apply decide_eq_decide.mpr
      constructor
      · rintro ⟨q, hq, hqp⟩
        rcases List.mem_cons.mp hq with rfl | hq'
        · exact absurd (by rw [hqp]; exact List.mem_map_of_mem Pareja.id hp) hn.1
        · exact ⟨q, hq', hqp⟩
      · rintro ⟨q, hq, hqp⟩
        exact ⟨q, List.mem_cons_of_mem a hq, hqp⟩

lemma perm_combo_quitar {combo disponibles : List Pareja}
    (hsub : combo.Sublist disponibles)
    (hn : (disponibles.map Pareja.id).Nodup) :
    (disponibles.map Pareja.id).Perm
      (combo.map Pareja.id ++ (quitarCombo disponibles combo).map Pareja.id) := by
  have hperm := List.filter_append_perm
    (fun p => decide (∃ q ∈ combo, q.id = p.id)) disponibles
  rw [filter_idmem_eq_combo hsub hn] at hperm
  have hq : disponibles.filter
      (fun p => !(decide (∃ q ∈ combo, q.id = p.id))) = quitarCombo disponibles combo := by
    unfold quitarCombo
    apply List.filter_congr
    intro p _
    rw [← decide_not]
    apply decide_eq_decide.mpr
    push_neg
    exact Iff.rfl
  rw [hq] at hperm
  have := hperm.map Pareja.id
  rw [List.map_append] at this
  exact this.symm

lemma quitar_nodup {combo disponibles : List Pareja}
    (hn : (disponibles.map Pareja.id).Nodup) :
    ((quitarCombo disponibles combo).map Pareja.id).Nodup :=
  hn.sublist ((List.filter_sublist _).map Pareja.id)

lemma foldl_agregar_ids : ∀ (combo : List Pareja) (g : Grupo),
    g.parejas.length + combo.length ≤ 3 →
    (combo.foldl Grupo.agregar_pareja g).parejas.map Pareja.id =
      g.parejas.map Pareja.id ++ combo.map Pareja.id := by
  intro combo
  induction combo with
  | nil => intro g _; simp
  | cons p ps ih =>
    intro g hlen
    rw [List.foldl_cons]
    have hlt : g.parejas.length < 3 := by
      simp only [List.length_cons] at hlen
      omega
    have hag : Grupo.agregar_pareja g p =
        { g with parejas := g.parejas ++ [{ p with grupo_asignado := some g.id }] } := by
      unfold Grupo.agregar_pareja
      rw [if_pos hlt]
    rw [hag]
    rw [ih { g with parejas := g.parejas ++ [{ p with grupo_asignado := some g.id }] }
      (by
        show (g.parejas ++ [{ p with grupo_asignado := some g.id }]).length +
          ps.length ≤ 3
        rw [List.length_append]
        simp only [List.length_cons] at hlen
        simp only [List.length_singleton]
        omega)]
    simp

lemma generar_partidos_parejas (g : Grupo) : g.generar_partidos.parejas = g.parejas := by
  unfold Grupo.generar_partidos
  split <;> rfl

/-- The pairs stored in a freshly created pool are exactly the chosen
triple (same ids, pool order). -/
lemma crear_grupo_ids (id : Nat) (combo : List Pareja) (categoria : String)
    (franja : Option String) (score : Rat) (hlen : combo.length ≤ 3) :
    (crear_grupo id combo categoria franja score).parejas.map Pareja.id =
      combo.map Pareja.id := by
  unfold crear_grupo
  rw [generar_partidos_parejas, foldl_agregar_ids combo _ (by simpa using hlen)]
  rfl

lemma foldl_best_mem : ∀ (l : List (List Pareja))
    (acc : Option (List Pareja) × Rat × Option String) (c : List Pareja),
    (l.foldl (fun acc combo =>
      let sf := calcular_compatibilidad combo
      if sf.1 > acc.2.1 then (some combo, sf.1, sf.2) else acc) acc).1 = some c →
    acc.1 = some c ∨ c ∈ l := by
  intro l
  induction l with
  | nil => exact fun acc c h => Or.inl h
  | cons x xs ih =>
    intro acc c h
    rw [List.foldl_cons] at h
    rcases ih _ c h with h' | h'
    · dsimp only at h'
      by_cases hgt : (calcular_compatibilidad x).1 > acc.2.1
    
      · rw [if_pos hgt] at h'
        exact Or.inr ((Option.some.inj h').symm ▸ List.mem_cons_self x xs)
      · rw [if_neg hgt] at h'
        exact Or.inl h'
    · exact Or.inr (List.mem_cons_of_mem x h')

lemma elegirMejorCombo_sublist {disponibles combo : List Pareja}
    {score : Rat} {franja : Option String}
    (h : elegirMejorCombo disponibles = (some combo, score, franja)) :
    combo.Sublist disponibles ∧ combo.length = 3 := by
  unfold elegirMejorCombo at h
  have hm := foldl_best_mem (List.sublistsLen 3 disponibles) (none, -1, none) combo
    (congrArg Prod.fst h)
  rcases hm with h' | h'
  · exact absurd h' (by simp)
  · have := List.mem_sublistsLen.mp h'
    exact ⟨this.1, this.2⟩

/-- Partition invariant of the greedy loop: the ids of the formed pools'
pairs together with the leftover ids are a permutation of the available
ids. -/
lemma greedyLoop_partition : ∀ (fuel : Nat) (disponibles : List Pareja)
    (categoria : String) (contador : Nat),
    (disponibles.map Pareja.id).Nodup →
    ((((greedyLoop fuel disponibles categoria contador).1.map
        (fun g => g.parejas)).join.map Pareja.id) ++
      ((greedyLoop fuel disponibles categoria contador).2.1.map Pareja.id)).Perm
      (disponibles.map Pareja.id) := by
  intro fuel
  induction fuel with
  | zero => intro disponibles categoria contador _; simp [greedyLoop]
  | succ fuel ih =>
    intro disponibles categoria contador hn
    rw [greedyLoop]
    by_cases hlen : disponibles.length ≥ 3
    · rw [if_pos hlen]
      rcases hsel : elegirMejorCombo disponibles with ⟨o, score, franja⟩
      cases o with
      | none => simp
      | some combo =>
        dsimp only
        by_cases hsc : score > 0
        · rw [if_pos hsc]
          dsimp only
          obtain ⟨hsub, hclen⟩ := elegirMejorCombo_sublist hsel
          have hrec := ih (quitarCombo disponibles combo) categoria (contador + 1)
            (quitar_nodup hn)
          have hcg := crear_grupo_ids (contador + 1) combo categoria franja score
            (le_of_eq hclen)
          simp only [List.map_cons, List.join_cons, List.map_append, List.append_assoc,
            hcg]
          exact (List.Perm.append_left (combo.map Pareja.id) hrec).trans
            (perm_combo_quitar hsub hn).symm
        · rw [if_neg hsc]
          simp
    · rw [if_neg hlen]
      simp

/-- Soundness of a search state: any recorded best configuration is a
partition of the input (at the level of pair ids). -/
def SoundBT (input_ids : List Nat) (st : BTState) : Prop :=
  ∀ gs sa, st.mejor_grupos = some gs → st.mejor_sin_asignar = some sa →
    (((gs.map (fun g => g.parejas)).join.map Pareja.id) ++ sa.map Pareja.id).Perm
      input_ids

lemma registrar_sound {input_ids : List Nat} {st : BTState}
    (grupos : List Grupo) (restantes : List Pareja) (score : Rat)
    (hst : SoundBT input_ids st)
    (hinv : (((grupos.map (fun g => g.parejas)).join.map Pareja.id) ++
      restantes.map Pareja.id).Perm input_ids) :
    SoundBT input_ids (registrar st grupos restantes score) := by
  unfold registrar
  split
  · intro gs sa h1 h2
    obtain rfl : grupos = gs := Option.some.inj h1
    obtain rfl : restantes = sa := Option.some.inj h2
    exact hinv
  · exact hst

lemma combos_take_spec {restantes : List Pareja} {k : Nat}
    {c : Rat × Option String × List Pareja}
    (hc : c ∈ (ordenarCombos (combosScored restantes)).take k) :
    c.2.2.Sublist restantes ∧ c.2.2.length = 3 := by
  have h1 : c ∈ ordenarCombos (combosScored restantes) := List.take_subset k _ hc
  have h2 : c ∈ combosScored restantes :=
    (List.perm_insertionSort comboGe _).subset h1
  unfold combosScored at h2
  rw [List.mem_filterMap] at h2
  obtain ⟨combo, hcombo, heq⟩ := h2
  dsimp only at heq
  split at heq
  · obtain rfl := Option.some.inj heq
    have := List.mem_sublistsLen.mp hcombo
    exact ⟨this.1, this.2⟩
  · cases heq

lemma backtrack_sound (nmax : Nat) (categoria : String) (input_ids : List Nat) :
    ∀ (fuel : Nat) (restantes : List Pareja) (grupos : List Grupo)
      (score : Rat) (formados : Nat) (st : BTState),
      (restantes.map Pareja.id).Nodup →
      (((grupos.map (fun g => g.parejas)).join.map Pareja.id) ++
        restantes.map Pareja.id).Perm input_ids →
      SoundBT input_ids st →
      SoundBT input_ids
        (backtrack nmax categoria fuel restantes grupos score formados st) := by
  intro fuel
  induction fuel with
  | zero =>
    intro restantes grupos score formados st _ _ hst
    rw [backtrack]
    exact hst
  | succ fuel ih =>
    intro restantes grupos score formados st hn hinv hst
    rw [backtrack]
    by_cases h1 : restantes.length < 3
    · rw [if_pos h1]
      exact registrar_sound _ _ _ hst hinv
    · rw [if_neg h1]
      by_cases h2 : formados ≥ nmax
      · rw [if_pos h2]
        exact registrar_sound _ _ _ hst hinv
      · rw [if_neg h2]
        by_cases h3 : score + ((restantes.length / 3 : Nat) : Rat) * 3 ≤
            st.mejor_score_total
        · rw [if_pos h3]
          exact hst
        · rw [if_neg h3]
          have hfold : ∀ (l : List (Rat × Option String × List Pareja)),
              (∀ c ∈ l, c.2.2.Sublist restantes ∧ c.2.2.length = 3) →
              ∀ st', SoundBT input_ids st' →
              SoundBT input_ids (l.foldl (fun st' c =>
                backtrack nmax categoria fuel (quitarCombo restantes c.2.2)
                  (grupos ++ [crear_grupo (st'.contador + 1) c.2.2 categoria c.2.1 c.1])
                  (score + c.1) (formados + 1)
                  { st' with contador := st'.contador + 1 }) st') := by
            intro l
            induction l with
            | nil => intro _ st' hst'; exact hst'
            | cons c cs ihl =>
              intro hl st' hst'
              rw [List.foldl_cons]
              apply ihl (fun c' hc' => hl c' (List.mem_cons_of_mem c hc'))
              apply ih
              · exact quitar_nodup hn
              · obtain ⟨hsub, hlen3⟩ := hl c (List.mem_cons_self c cs)
                have hcg := crear_grupo_ids (st'.contador + 1) c.2.2 categoria c.2.1
                  c.1 (le_of_eq hlen3)
                simp only [List.map_append, List.join_append, List.map_cons,
                  List.join_cons, List.map_nil, List.join_nil, List.append_nil,
                  hcg, List.append_assoc]
                refine List.Perm.trans ?_ hinv
                apply List.Perm.append_left
                exact (perm_combo_quitar hsub hn).symm
              · exact hst'
          exact hfold _ (fun c hc => combos_take_spec hc) st hst

lemma buscar_sound (parejas : List Pareja) (categoria : String) (contador : Nat)
    (hn : (parejas.map Pareja.id).Nodup) :
    ∀ gs sa, (buscar_distribucion_optima parejas categoria contador).1 =
        some (gs, sa) →
      (((gs.map (fun g => g.parejas)).join.map Pareja.id) ++
        sa.map Pareja.id).Perm (parejas.map Pareja.id) := by
  intro gs sa h
  unfold buscar_distribucion_optima at h
  dsimp only at h
  have hs := backtrack_sound (parejas.length / 3) categoria (parejas.map Pareja.id)
    (parejas.length + 1) parejas [] (0 : Rat) 0 { contador := contador } hn
    (by simp) (fun _ _ h1 _ => by cases h1)
  set st := backtrack (parejas.length / 3) categoria (parejas.length + 1) parejas
    [] (0 : Rat) 0 { contador := contador } with hstdef
  cases hg : st.mejor_grupos with
  | none => rw [hg] at h; cases hsa : st.mejor_sin_asignar <;> rw [hsa] at h <;> cases h
  | some gs' =>
    cases hsa : st.mejor_sin_asignar with
    | none => rw [hg, hsa] at h; cases h
    | some sa' =>
      rw [hg, hsa] at h
      dsimp only at h
      obtain ⟨rfl, rfl⟩ := Prod.ext_iff.mp (Option.some.inj h)
      exact hs gs' sa' hg hsa

/-- C4: `_formar_grupos_categoria` partitions its input: the formed pools'
pair ids together with the leftover ids are a permutation of the input ids
(so every entrant lands in exactly one pool or in the leftover, never
twice), pool sizes plus leftover count add up to the input count, and with
fewer than 3 entrants no pool is formed.  The statement covers whichever of
the optimal-search and greedy paths the input size selects. -/
theorem formar_grupos_particion (parejas : List Pareja) (categoria : String)
    (hn : (parejas.map Pareja.id).Nodup) :
    ((((formar_grupos_categoria parejas categoria 0).1.map
        (fun g => g.parejas)).join.map Pareja.id) ++
      (formar_grupos_categoria parejas categoria 0).2.1.map Pareja.id).Perm
      (parejas.map Pareja.id) ∧
    ((formar_grupos_categoria parejas categoria 0).1.map
      (fun g => g.parejas.length)).sum +
      (formar_grupos_categoria parejas categoria 0).2.1.length = parejas.length ∧
    (parejas.length < 3 → (formar_grupos_categoria parejas categoria 0).1 = [] ∧
      (formar_grupos_categoria parejas categoria 0).2.1 = parejas) := by
  have hP : ((((formar_grupos_categoria parejas categoria 0).1.map
        (fun g => g.parejas)).join.map Pareja.id) ++
      (formar_grupos_categoria parejas categoria 0).2.1.map Pareja.id).Perm
      (parejas.map Pareja.id) := by
    unfold formar_grupos_categoria
    by_cases h1 : parejas.length < 3
    · rw [if_pos h1]
      simp
    · rw [if_neg h1]
      dsimp only
      by_cases h2 : 2 ≤ parejas.length / 3 ∧ parejas.length / 3 ≤ 6
      · rw [if_pos h2]
        cases hb : buscar_distribucion_optima parejas categoria 0 with
        | mk o c' =>
          cases o with
          | some p =>
            obtain ⟨gs, sa⟩ := p
            dsimp only
            exact buscar_sound parejas categoria 0 hn gs sa (by rw [hb])
          | none =>
            dsimp only
            exact greedyLoop_partition parejas.length parejas categoria c' hn
      · rw [if_neg h2]
        exact greedyLoop_partition parejas.length parejas categoria 0 hn
  refine ⟨hP, ?_, ?_⟩
  · have hlen := hP.length_eq
    simp only [List.length_append, List.length_map, List.length_join,
      List.map_map, Function.comp] at hlen
    simpa using hlen
  · intro h1
    unfold formar_grupos_categoria
    rw [if_pos h1]
    exact ⟨rfl, rfl⟩

/-- A concrete input list for the C4 witness: four pairs, distinct ids. -/
def parejasC4 : List Pareja :=
  [parejaEjemplo 1 "A", parejaEjemplo 2 "B", parejaEjemplo 3 "C", parejaEjemplo 7 "G"]

/-- Witness for C4 at a concrete input. -/
theorem formar_grupos_particion_witness :
    (parejasC4.map Pareja.id).Nodup ∧
    ((formar_grupos_categoria parejasC4 "Cuarta" 0).1.map
      (fun g => g.parejas.length)).sum +
      (formar_grupos_categoria parejasC4 "Cuarta" 0).2.1.length = parejasC4.length :=
  ⟨by decide, (formar_grupos_particion parejasC4 "Cuarta" (by decide)).2.1⟩

lemma contribucion_nonneg (c : String) (fs : List String) : 0 ≤ contribucion c fs := by
  unfold contribucion
  split_ifs <;> norm_num

lemma contribucion_mem {c : String} {fs : List String} (h : c ∈ fs) :
    contribucion c fs = 1 := by
  unfold contribucion
  rw [if_pos h]

lemma scoreFranja_ge_one_of_mem {c : String} {f1 f2 f3 : List String}
    (h : c ∈ f1 ++ f2 ++ f3) : 1 ≤ scoreFranja c f1 f2 f3 := by
  have n1 := contribucion_nonneg c f1
  have n2 := contribucion_nonneg c f2
  have n3 := contribucion_nonneg c f3
  unfold scoreFranja
  rcases List.mem_append.mp h with h' | h3
  · rcases List.mem_append.mp h' with h1 | h2
    · rw [contribucion_mem h1]; linarith
    · rw [contribucion_mem h2]; linarith
  · rw [contribucion_mem h3]; linarith

/-- Fold invariant of the best-slot loop: the running best never decreases,
bounds every score seen, and the result is either the initial accumulator
or a visited candidate together with its own score. -/
lemma mejorFranja_fold_spec (f1 f2 f3 : List String) :
    ∀ (cands : List String) (acc : Rat × Option String),
      acc.1 ≤ (cands.foldl (fun acc c =>
        let score := scoreFranja c f1 f2 f3
        if score > acc.1 then (score, some c) else acc) acc).1 ∧
      (∀ c ∈ cands, scoreFranja c f1 f2 f3 ≤ (cands.foldl (fun acc c =>
        let score := scoreFranja c f1 f2 f3
        if score > acc.1 then (score, some c) else acc) acc).1) ∧
      ((cands.foldl (fun acc c =>
        let score := scoreFranja c f1 f2 f3
        if score > acc.1 then (score, some c) else acc) acc) = acc ∨
        ∃ s ∈ cands, (cands.foldl (fun acc c =>
          let score := scoreFranja c f1 f2 f3
          if score > acc.1 then (score, some c) else acc) acc) =
          (scoreFranja s f1 f2 f3, some s)) := by
  intro cands
  induction cands with
  | nil => exact fun acc => ⟨le_refl _, by simp, Or.inl rfl⟩
  | cons c cs ih =>
    intro acc
    rw [List.foldl_cons]
    by_cases hgt : scoreFranja c f1 f2 f3 > acc.1
    · have hstep : (fun acc c =>
          let score := scoreFranja c f1 f2 f3
          if score > acc.1 then (score, some c) else acc) acc c =
          (scoreFranja c f1 f2 f3, some c) := by
        dsimp only
        rw [if_pos hgt]
      simp only [hstep]
      obtain ⟨ih1, ih2, ih3⟩ := ih (scoreFranja c f1 f2 f3, some c)
      refine ⟨le_of_lt (lt_of_lt_of_le hgt ih1), ?_, ?_⟩
      · intro x hx
        rcases List.mem_cons.mp hx with rfl | hx'
        · exact ih1
        · exact ih2 x hx'
      · rcases ih3 with h' | ⟨s, hs, h'⟩
        · exact Or.inr ⟨c, List.mem_cons_self c cs, h'⟩
        · exact Or.inr ⟨s, List.mem_cons_of_mem c hs, h'⟩
    · have hstep : (fun acc c =>
          let score := scoreFranja c f1 f2 f3
          if score > acc.1 then (score, some c) else acc) acc c = acc := by
        dsimp only
        rw [if_neg hgt]
      simp only [hstep]
      obtain ⟨ih1, ih2, ih3⟩ := ih acc
      refine ⟨ih1, ?_, ?_⟩
      · intro x hx
        rcases List.mem_cons.mp hx with rfl | hx'
        · exact le_trans (not_lt.mp hgt) ih1
        · exact ih2 x hx'
      · rcases ih3 with h' | ⟨s, hs, h'⟩
        · exact Or.inl h'
        · exact Or.inr ⟨s, List.mem_cons_of_mem c hs, h'⟩

/-- Core behaviour of `_calcular_compatibilidad`, shared by the claims
about the scorer: intersection branch, maximality of the returned score,
and the attained maximum on a nonempty union. -/
lemma compatSpecAux (p1 p2 p3 : Pareja) :
    ((∃ s, s ∈ p1.franjas_disponibles ∧ s ∈ p2.franjas_disponibles ∧
        s ∈ p3.franjas_disponibles) →
      (calcular_compatibilidad [p1, p2, p3]).1 = 3 ∧
      ∃ s, (calcular_compatibilidad [p1, p2, p3]).2 = some s ∧
        s ∈ p1.franjas_disponibles ∧ s ∈ p2.franjas_disponibles ∧
        s ∈ p3.franjas_disponibles) ∧
    (¬(∃ s, s ∈ p1.franjas_disponibles ∧ s ∈ p2.franjas_disponibles ∧
        s ∈ p3.franjas_disponibles) →
      (∀ c ∈ p1.franjas_disponibles ++ p2.franjas_disponibles ++
          p3.franjas_disponibles,
        scoreFranja c p1.franjas_disponibles p2.franjas_disponibles
          p3.franjas_disponibles ≤ (calcular_compatibilidad [p1, p2, p3]).1) ∧
      (p1.franjas_disponibles ++ p2.franjas_disponibles ++ p3.franjas_disponibles =
          [] → calcular_compatibilidad [p1, p2, p3] = (0, none)) ∧
      (p1.franjas_disponibles ++ p2.franjas_disponibles ++ p3.franjas_disponibles ≠
          [] →
        ∃ s ∈ p1.franjas_disponibles ++ p2.franjas_disponibles ++
            p3.franjas_disponibles,
          calcular_compatibilidad [p1, p2, p3] =
            (scoreFranja s p1.franjas_disponibles p2.franjas_disponibles
              p3.franjas_disponibles, some s))) := by
  unfold calcular_compatibilidad
  dsimp only
  cases hf : p1.franjas_disponibles.filter
      (fun s => decide (s ∈ p2.franjas_disponibles ∧ s ∈ p3.franjas_disponibles)) with
  | cons c rest =>
    have hcmem : c ∈ p1.franjas_disponibles ∧
        (c ∈ p2.franjas_disponibles ∧ c ∈ p3.franjas_disponibles) := by
      have : c ∈ p1.franjas_disponibles.filter
          (fun s => decide (s ∈ p2.franjas_disponibles ∧ s ∈ p3.franjas_disponibles)) := by
        rw [hf]; exact List.mem_cons_self c rest
      have h2 := List.of_mem_filter this
      exact ⟨List.mem_of_mem_filter this, of_decide_eq_true h2⟩
    constructor
    · intro _
      exact ⟨rfl, c, rfl, hcmem.1, hcmem.2.1, hcmem.2.2⟩
    · intro hno
      exact absurd ⟨c, hcmem.1, hcmem.2.1, hcmem.2.2⟩ hno
  | nil =>
    constructor
    · rintro ⟨s, hs1, hs2, hs3⟩
      have : s ∈ p1.franjas_disponibles.filter
          (fun s => decide (s ∈ p2.franjas_disponibles ∧ s ∈ p3.franjas_disponibles)) :=
        List.mem_filter.mpr ⟨hs1, decide_eq_true ⟨hs2, hs3⟩⟩
      rw [hf] at this
      cases this
    · intro _
      obtain ⟨h1, h2, h3⟩ := mejorFranja_fold_spec p1.franjas_disponibles
        p2.franjas_disponibles p3.franjas_disponibles
        (p1.franjas_disponibles ++ p2.franjas_disponibles ++ p3.franjas_disponibles)
        (0, none)
      refine ⟨h2, ?_, ?_⟩
      · intro hnil
        show mejorFranja _ _ _ _ = (0, none)
        unfold mejorFranja
        rw [hnil]
        rfl
      · intro hne
        rcases h3 with h' | ⟨s, hs, h'⟩
        · obtain ⟨c, hc⟩ := List.exists_mem_of_ne_nil _ hne
          have hge := scoreFranja_ge_one_of_mem hc
          have hle := h2 c hc
          rw [show (List.foldl (fun acc c =>
            let score := scoreFranja c p1.franjas_disponibles p2.franjas_disponibles
              p3.franjas_disponibles
            if score > acc.1 then (score, some c) else acc) (0, none)
            (p1.franjas_disponibles ++ p2.franjas_disponibles ++
              p3.franjas_disponibles)) = (0, none) from h'] at hle
          norm_num at hle
          linarith
        · exact ⟨s, hs, h'⟩

/-- C5: with a slot common to all three pairs the scorer returns 3.0 and a
slot from the intersection; otherwise it returns the maximum over the union
of the summed per-pair contributions (1.0 exact slot, 0.5 same calendar
day, 0.0 otherwise) together with a slot attaining that maximum (and
`(0.0, none)` on an empty union). -/
theorem calcular_compatibilidad_spec (p1 p2 p3 : Pareja) :
    ((∃ s, s ∈ p1.franjas_disponibles ∧ s ∈ p2.franjas_disponibles ∧
        s ∈ p3.franjas_disponibles) →
      (calcular_compatibilidad [p1, p2, p3]).1 = 3 ∧
      ∃ s, (calcular_compatibilidad [p1, p2, p3]).2 = some s ∧
        s ∈ p1.franjas_disponibles ∧ s ∈ p2.franjas_disponibles ∧
        s ∈ p3.franjas_disponibles) ∧
    (¬(∃ s, s ∈ p1.franjas_disponibles ∧ s ∈ p2.franjas_disponibles ∧
        s ∈ p3.franjas_disponibles) →
      (∀ c ∈ p1.franjas_disponibles ++ p2.franjas_disponibles ++
          p3.franjas_disponibles,
        scoreFranja c p1.franjas_disponibles p2.franjas_disponibles
          p3.franjas_disponibles ≤ (calcular_compatibilidad [p1, p2, p3]).1) ∧
      (p1.franjas_disponibles ++ p2.franjas_disponibles ++ p3.franjas_disponibles =
          [] → calcular_compatibilidad [p1, p2, p3] = (0, none)) ∧
      (p1.franjas_disponibles ++ p2.franjas_disponibles ++ p3.franjas_disponibles ≠
          [] →
        ∃ s ∈ p1.franjas_disponibles ++ p2.franjas_disponibles ++
            p3.franjas_disponibles,
          calcular_compatibilidad [p1, p2, p3] =
            (scoreFranja s p1.franjas_disponibles p2.franjas_disponibles
              p3.franjas_disponibles, some s))) :=
  compatSpecAux p1 p2 p3

/-- Witness for C5 at three pairs sharing the slot "Jueves 18:00". -/
theorem calcular_compatibilidad_spec_witness :
    (calcular_compatibilidad
      [parejaEjemplo 1 "A", parejaEjemplo 2 "B", parejaEjemplo 3 "C"]).1 = 3 :=
  ((calcular_compatibilidad_spec (parejaEjemplo 1 "A") (parejaEjemplo 2 "B")
      (parejaEjemplo 3 "C")).1
    ⟨"Jueves 18:00", by decide, by decide, by decide⟩).1

/-- Three pairs with pairwise different availability days. -/
def parejaDiasA : Pareja :=
  { id := 11, nombre := "DA", telefono := "t", categoria := "Cuarta",
    franjas_disponibles := ["Jueves 18:00"] }

def parejaDiasB : Pareja :=
  { id := 12, nombre := "DB", telefono := "t", categoria := "Cuarta",
    franjas_disponibles := ["Viernes 18:00"] }

def parejaDiasC : Pareja :=
  { id := 13, nombre := "DC", telefono := "t", categoria := "Cuarta",
    franjas_disponibles := ["Sábado 09:00"] }

lemma contains_of_dia_ne {c : String} (h : dia c ≠ "") :
    c.toList.contains ' ' = true := by
  by_cases hc : c.toList.contains ' ' = true
  · exact hc
  · exact absurd (by unfold dia; rw [if_neg hc]) h

lemma dia_mem_diasDe {c : String} {fs : List String} (hc : c ∈ fs)
    (hsp : c.toList.contains ' ' = true) : dia c ∈ diasDe fs :=
  List.mem_map_of_mem dia (List.mem_filter.mpr ⟨hc, hsp⟩)

lemma contribucion_eq_zero {c : String} {fs : List String} (hnot : c ∉ fs)
    (hday : dia c ≠ "" → dia c ∉ diasDe fs) : contribucion c fs = 0 := by
  unfold contribucion
  rw [if_neg hnot, if_neg (fun hh => hday hh.1 hh.2)]

lemma scoreFranja_eq_one_of_disjoint {p1 p2 p3 : Pareja} {c : String}
    (hs12 : ∀ s ∈ p1.franjas_disponibles, s ∉ p2.franjas_disponibles)
    (hs13 : ∀ s ∈ p1.franjas_disponibles, s ∉ p3.franjas_disponibles)
    (hs23 : ∀ s ∈ p2.franjas_disponibles, s ∉ p3.franjas_disponibles)
    (hd12 : ∀ d ∈ diasDe p1.franjas_disponibles, d ∉ diasDe p2.franjas_disponibles)
    (hd13 : ∀ d ∈ diasDe p1.franjas_disponibles, d ∉ diasDe p3.franjas_disponibles)
    (hd23 : ∀ d ∈ diasDe p2.franjas_disponibles, d ∉ diasDe p3.franjas_disponibles)
    (hc : c ∈ p1.franjas_disponibles ++ p2.franjas_disponibles ++
      p3.franjas_disponibles) :
    scoreFranja c p1.franjas_disponibles p2.franjas_disponibles
      p3.franjas_disponibles = 1 := by
  unfold scoreFranja
  rcases List.mem_append.mp hc with hc' | h3
  · rcases List.mem_append.mp hc' with h1 | h2
    · rw [contribucion_mem h1,
        contribucion_eq_zero (hs12 c h1)
          (fun hne => hd12 (dia c) (dia_mem_diasDe h1 (contains_of_dia_ne hne))),
        contribucion_eq_zero (hs13 c h1)
          (fun hne => hd13 (dia c) (dia_mem_diasDe h1 (contains_of_dia_ne hne)))]
      norm_num
    · rw [contribucion_mem h2,
        contribucion_eq_zero (fun h1 => hs12 c h1 h2)
          (fun hne hm1 =>
            hd12 (dia c) hm1 (dia_mem_diasDe h2 (contains_of_dia_ne hne))),
        contribucion_eq_zero (hs23 c h2)
          (fun hne => hd23 (dia c) (dia_mem_diasDe h2 (contains_of_dia_ne hne)))]
      norm_num
  · rw [contribucion_mem h3,
      contribucion_eq_zero (fun h1 => hs13 c h1 h3)
        (fun hne hm1 =>
          hd13 (dia c) hm1 (dia_mem_diasDe h3 (contains_of_dia_ne hne))),
      contribucion_eq_zero (fun h2 => hs23 c h2 h3)
        (fun hne hm2 =>
          hd23 (dia c) hm2 (dia_mem_diasDe h3 (contains_of_dia_ne hne)))]
    norm_num

/-- Counterexample to C6 as stated: three pairs sharing no calendar day at
all, yet the scorer does not return `(0.0, none)` — a slot from the union
always scores 1.0 from its owner (the code returns `(1.0, some slot)`
here). -/
theorem compat_sin_dias_counterexample :
    (∀ d ∈ diasDe parejaDiasA.franjas_disponibles,
      d ∉ diasDe parejaDiasB.franjas_disponibles) ∧
    (∀ d ∈ diasDe parejaDiasA.franjas_disponibles,
      d ∉ diasDe parejaDiasC.franjas_disponibles) ∧
    (∀ d ∈ diasDe parejaDiasB.franjas_disponibles,
      d ∉ diasDe parejaDiasC.franjas_disponibles) ∧
    ¬(calcular_compatibilidad [parejaDiasA, parejaDiasB, parejaDiasC] =
      (0, none)) := by
  refine ⟨by decide, by decide, by decide, ?_⟩
  have hno : ¬(∃ s, s ∈ parejaDiasA.franjas_disponibles ∧
      s ∈ parejaDiasB.franjas_disponibles ∧
      s ∈ parejaDiasC.franjas_disponibles) := by decide
  obtain ⟨hmax, hempty, hne⟩ := (compatSpecAux parejaDiasA parejaDiasB
    parejaDiasC).2 hno
  obtain ⟨s, hs, heq⟩ := hne (by decide)
  have h1 := @scoreFranja_eq_one_of_disjoint parejaDiasA parejaDiasB
    parejaDiasC s (by decide) (by decide) (by decide) (by decide)
    (by decide) (by decide) hs
  rw [heq, h1]
  intro hcontra
  have := congrArg Prod.fst hcontra
  norm_num at this

/-- C6 amended: for three pairs sharing no slot and no calendar day
pairwise, the scorer returns `(0.0, none)` exactly when all three
availability sets are empty; with any slot available it returns score 1.0
(never 0.0) together with some slot from the union. -/
theorem compat_sin_dias_compartidos (p1 p2 p3 : Pareja)
    (hs12 : ∀ s ∈ p1.franjas_disponibles, s ∉ p2.franjas_disponibles)
    (hs13 : ∀ s ∈ p1.franjas_disponibles, s ∉ p3.franjas_disponibles)
    (hs23 : ∀ s ∈ p2.franjas_disponibles, s ∉ p3.franjas_disponibles)
    (hd12 : ∀ d ∈ diasDe p1.franjas_disponibles, d ∉ diasDe p2.franjas_disponibles)
    (hd13 : ∀ d ∈ diasDe p1.franjas_disponibles, d ∉ diasDe p3.franjas_disponibles)
    (hd23 : ∀ d ∈ diasDe p2.franjas_disponibles, d ∉ diasDe p3.franjas_disponibles) :
    (p1.franjas_disponibles = [] ∧ p2.franjas_disponibles = [] ∧
        p3.franjas_disponibles = [] →
      calcular_compatibilidad [p1, p2, p3] = (0, none)) ∧
    (p1.franjas_disponibles ++ p2.franjas_disponibles ++ p3.franjas_disponibles ≠
        [] →
      (calcular_compatibilidad [p1, p2, p3]).1 = 1 ∧
      ∃ s ∈ p1.franjas_disponibles ++ p2.franjas_disponibles ++
          p3.franjas_disponibles,
        (calcular_compatibilidad [p1, p2, p3]).2 = some s) := by
  have hno : ¬(∃ s, s ∈ p1.franjas_disponibles ∧ s ∈ p2.franjas_disponibles ∧
      s ∈ p3.franjas_disponibles) := by
    rintro ⟨s, h1, h2, _⟩
    exact hs12 s h1 h2
  obtain ⟨hmax, hempty, hnonempty⟩ := (compatSpecAux p1 p2 p3).2 hno
  constructor
  · rintro ⟨e1, e2, e3⟩
    exact hempty (by rw [e1, e2, e3]; rfl)
  · intro hne
    obtain ⟨s, hs, heq⟩ := hnonempty hne
    have hsc := scoreFranja_eq_one_of_disjoint hs12 hs13 hs23 hd12 hd13 hd23 hs
    rw [heq]
    exact ⟨hsc, s, hs, rfl⟩

/-- Witness for the amended C6 at the three concrete day-disjoint pairs. -/
theorem compat_sin_dias_compartidos_witness :
    (calcular_compatibilidad [parejaDiasA, parejaDiasB, parejaDiasC]).1 = 1 :=
  ((compat_sin_dias_compartidos parejaDiasA parejaDiasB parejaDiasC
      (by decide) (by decide) (by decide) (by decide) (by decide)
      (by decide)).2 (by decide)).1

/-- The `franjas_a_horas` table of `_generar_calendario`, with the
`.get(franja, [franja])` default. -/
def franjasAHoras (franja : String) : List String :=
  if franja = "Jueves 18:00" then ["Jueves 18:00", "Jueves 19:00", "Jueves 20:00"]
  else if franja = "Jueves 20:00" then ["Jueves 20:00", "Jueves 21:00", "Jueves 22:00"]
  else if franja = "Viernes 18:00" then ["Viernes 18:00", "Viernes 19:00", "Viernes 20:00"]
  else if franja = "Viernes 21:00" then ["Viernes 21:00", "Viernes 22:00", "Viernes 23:00"]
  else if franja = "Sábado 09:00" then ["Sábado 09:00", "Sábado 10:00", "Sábado 11:00"]
  else if franja = "Sábado 12:00" then ["Sábado 12:00", "Sábado 13:00", "Sábado 14:00"]
  else if franja = "Sábado 16:00" then ["Sábado 16:00", "Sábado 17:00", "Sábado 18:00"]
  else if franja = "Sábado 19:00" then ["Sábado 19:00", "Sábado 20:00", "Sábado 21:00"]
  else [franja]

/-- `EMOJI_CATEGORIA.get(categoria, "⚪")` from `config/settings.py`. -/
def emojiCategoria (categoria : String) : String :=
  if categoria = "Cuarta" then "🟢"
  else if categoria = "Quinta" then "🟡"
  else if categoria = "Sexta" then "🔵"
  else if categoria = "Séptima" then "🟣"
  else "⚪"

/-- One element of `grupos_con_info` in `_generar_calendario`. -/
structure InfoGrupo where
  grupo : Grupo
  franja : String
  categoria : String
  horas : List String
deriving DecidableEq, Repr

/-- The `grupos_con_info` collection pass: pools with an assigned slot, in
category order then pool order (`grupos_por_categoria` is modelled as an
insertion-ordered association list). -/
def gruposConInfo (gpc : List (String × List Grupo)) : List InfoGrupo :=
  (gpc.map (fun cg => cg.2.filterMap (fun g =>
    match g.franja_horaria with
    | some fr => some { grupo := g, franja := fr, categoria := cg.1,
                        horas := franjasAHoras fr }
    | none => none))).join

/-- `canchas_ocupadas[cancha].extend(horas)`. -/
def actualizaOcupadas (oc : Nat → List String) (c : Nat) (hs : List String) :
    Nat → List String :=
  fun x => if x = c then oc x ++ hs else oc x

/-- First court (1-based, in order) whose occupied hours do not overlap the
slot's hours. -/
def buscaLibre (oc : Nat → List String) (num_canchas : Nat)
    (horas : List String) : Option Nat :=
  (List.range' 1 num_canchas).find? (fun c => decide (∀ h ∈ horas, h ∉ oc c))

/-- The fewest-conflicting-hours fallback court (`float('inf')` start is
modelled by `none`). -/
def menorConflictos (oc : Nat → List String) (num_canchas : Nat)
    (horas : List String) : Nat :=
  ((List.range' 1 num_canchas).foldl (fun acc c =>
    let conflictos := (horas.filter (fun h => decide (h ∈ oc c))).length
    match acc.2 with
    | none => (c, some conflictos)
    | some m => if conflictos < m then (c, some conflictos) else acc)
    (1, none)).1

/-- One iteration of the court-assignment loop of `_generar_calendario`:
a free court if one exists, otherwise the fewest-conflicts court (the
soft-fail), always extending that court's occupied hours. -/
def pasoAsignar (num_canchas : Nat)
    (st : (Nat → List String) × List (Nat × Nat)) (info : InfoGrupo) :
    (Nat → List String) × List (Nat × Nat) :=
  match buscaLibre st.1 num_canchas info.horas with
  | some c => (actualizaOcupadas st.1 c info.horas, st.2 ++ [(info.grupo.id, c)])
  | none =>
    let c := menorConflictos st.1 num_canchas info.horas
    (actualizaOcupadas st.1 c info.horas, st.2 ++ [(info.grupo.id, c)])

/-- The full court-assignment loop; `asignaciones` is the `{grupo.id:
cancha}` dict as an insertion-ordered association list. -/
def asignar_canchas (infos : List InfoGrupo) (num_canchas : Nat) :
    (Nat → List String) × List (Nat × Nat) :=
  infos.foldl (pasoAsignar num_canchas) ((fun _ => []), [])

/-- Dict lookup `asignaciones[grupo.id]` (keys are distinct in every run,
as group ids are globally unique). -/
def lookupAsig : List (Nat × Nat) → Nat → Option Nat
  | [], _ => none
  | (i, c) :: rest, j => if i = j then some c else lookupAsig rest j

/-- One entry of the calendar produced by `_generar_calendario`.  The
Python result dict `{franja: [entries]}` is modelled as the flat list of
entries (each carries its `franja`, so the dict is its grouping). -/
structure EntradaCalendario where
  franja : String
  categoria : String
  color : String
  grupo_id : Nat
  cancha : Nat
  partido_num : Nat
  pareja1 : String
  pareja2 : String
  score_compatibilidad : Rat
deriving DecidableEq, Repr

/-- `AlgoritmoGrupos._generar_calendario`. -/
def generar_calendario (gpc : List (String × List Grupo)) (num_canchas : Nat) :
    List EntradaCalendario :=
  let infos := gruposConInfo gpc
  let asigs := (asignar_canchas infos num_canchas).2
  (infos.map (fun info =>
    (info.grupo.partidos.enum).map (fun ip =>
      { franja := info.franja, categoria := info.categoria,
        color := emojiCategoria info.categoria, grupo_id := info.grupo.id,
        cancha := (lookupAsig asigs info.grupo.id).getD 0,
        partido_num := ip.1 + 1,
        pareja1 := ip.2.1.nombre, pareja2 := ip.2.2.nombre,
        score_compatibilidad := info.grupo.score_compatibilidad }))).join

/-- The (day-hour, court) cell implicitly occupied by a calendar entry:
match `k` of a pool plays at hour `k` of the pool's slot (no cell when the
slot has fewer hours than matches). -/
def celda (e : EntradaCalendario) : Option (String × Nat) :=
  ((franjasAHoras e.franja)[e.partido_num - 1]?).map (fun h => (h, e.cancha))

/-- A complete pool on the Thursday-18:00 slot with its three round-robin
matches, for the scheduler claims. -/
def grupoCal (gid a b c : Nat) : Grupo :=
  { id := gid, categoria := "Cuarta",
    parejas := [parejaEjemplo a "a", parejaEjemplo b "b", parejaEjemplo c "c"],
    franja_horaria := some "Jueves 18:00",
    partidos := [(parejaEjemplo a "a", parejaEjemplo b "b"),
                 (parejaEjemplo a "a", parejaEjemplo c "c"),
                 (parejaEjemplo b "b", parejaEjemplo c "c")] }

/-- Counterexample to C9 as stated: with a single court and two pools on
the same slot, the fewest-conflicts fallback assigns both pools to court 1
and the produced calendar puts two different pools' matches in the very
same (day, hour, court) cell. -/
theorem calendario_counterexample :
    ((generar_calendario [("Cuarta", [grupoCal 1 1 2 3, grupoCal 2 4 5 6])] 1).map
      (fun e => (e.grupo_id, e.partido_num, celda e)))[0]? =
        some (1, 1, some ("Jueves 18:00", 1)) ∧
    ((generar_calendario [("Cuarta", [grupoCal 1 1 2 3, grupoCal 2 4 5 6])] 1).map
      (fun e => (e.grupo_id, e.partido_num, celda e)))[3]? =
        some (2, 1, some ("Jueves 18:00", 1)) := by
  constructor <;> rfl

/-- `pasoAsignar` instrumented with the full assigned pairs and a flag that
records whether the fewest-conflicts fallback ever fired. -/
def pasoSim (num_canchas : Nat)
    (st : (Nat → List String) × List (InfoGrupo × Nat) × Bool) (info : InfoGrupo) :
    (Nat → List String) × List (InfoGrupo × Nat) × Bool :=
  match buscaLibre st.1 num_canchas info.horas with
  | some c => (actualizaOcupadas st.1 c info.horas, st.2.1 ++ [(info, c)], st.2.2)
  | none =>
    let c := menorConflictos st.1 num_canchas info.horas
    (actualizaOcupadas st.1 c info.horas, st.2.1 ++ [(info, c)], true)

/-- The instrumented run of the court-assignment loop. -/
def asignarSim (infos : List InfoGrupo) (num_canchas : Nat) :
    (Nat → List String) × List (InfoGrupo × Nat) × Bool :=
  infos.foldl (pasoSim num_canchas) ((fun _ => []), [], false)

lemma sim_proy (num_canchas : Nat) : ∀ (infos : List InfoGrupo)
    (oc : Nat → List String) (pairs : List (InfoGrupo × Nat)) (b : Bool),
    infos.foldl (pasoAsignar num_canchas)
      (oc, pairs.map (fun p => (p.1.grupo.id, p.2))) =
      ((infos.foldl (pasoSim num_canchas) (oc, pairs, b)).1,
        ((infos.foldl (pasoSim num_canchas) (oc, pairs, b)).2.1).map
          (fun p => (p.1.grupo.id, p.2))) := by
  intro infos
  induction infos with
  | nil => intro oc pairs b; rfl
  | cons i is ih =>
    intro oc pairs b
    rw [List.foldl_cons, List.foldl_cons]
    show is.foldl (pasoAsignar num_canchas)
      (pasoAsignar num_canchas (oc, pairs.map (fun p => (p.1.grupo.id, p.2))) i) = _
    unfold pasoAsignar pasoSim
    dsimp only
    cases hb : buscaLibre oc num_canchas i.horas with
    | some c =>
      dsimp only
      rw [show pairs.map (fun p => (p.1.grupo.id, p.2)) ++ [(i.grupo.id, c)] =
        (pairs ++ [(i, c)]).map (fun p => (p.1.grupo.id, p.2)) by simp]
      exact ih _ _ b
    | none =>
      dsimp only
      rw [show pairs.map (fun p => (p.1.grupo.id, p.2)) ++
          [(i.grupo.id, menorConflictos oc num_canchas i.horas)] =
        (pairs ++ [(i, menorConflictos oc num_canchas i.horas)]).map
          (fun p => (p.1.grupo.id, p.2)) by simp]
      exact ih _ _ true

/-- The projection of the instrumented run is the source assignment. -/
lemma asignar_canchas_eq_sim (infos : List InfoGrupo) (num_canchas : Nat) :
    asignar_canchas infos num_canchas =
      ((asignarSim infos num_canchas).1,
        ((asignarSim infos num_canchas).2.1).map (fun p => (p.1.grupo.id, p.2))) :=
  sim_proy num_canchas infos (fun _ => []) [] false

lemma sim_flag_mono (num_canchas : Nat) : ∀ (infos : List InfoGrupo)
    (st : (Nat → List String) × List (InfoGrupo × Nat) × Bool),
    st.2.2 = true → (infos.foldl (pasoSim num_canchas) st).2.2 = true := by
  intro infos
  induction infos with
  | nil => intro st h; exact h
  | cons i is ih =>
    intro st h
    rw [List.foldl_cons]
    apply ih
    unfold pasoSim
    cases hb : buscaLibre st.1 num_canchas i.horas with
    | some c => exact h
    | none => rfl

lemma sim_pairs_fst (num_canchas : Nat) : ∀ (infos : List InfoGrupo)
    (st : (Nat → List String) × List (InfoGrupo × Nat) × Bool),
    ((infos.foldl (pasoSim num_canchas) st).2.1).map Prod.fst =
      (st.2.1.map Prod.fst) ++ infos := by
  intro infos
  induction infos with
  | nil => intro st; simp
  | cons i is ih =>
    intro st
    rw [List.foldl_cons]
    rw [ih]
    unfold pasoSim
    cases hb : buscaLibre st.1 num_canchas i.horas <;> simp

/-- Invariant of a fallback-free assignment run: every assigned pool's
hours are inside its court's occupied hours, and two pools on the same
court have disjoint hours. -/
def BuenEstado (st : (Nat → List String) × List (InfoGrupo × Nat) × Bool) : Prop :=
  (∀ p ∈ st.2.1, ∀ h ∈ p.1.horas, h ∈ st.1 p.2) ∧
  List.Pairwise (fun p q : InfoGrupo × Nat =>
    p.2 = q.2 → ∀ h ∈ p.1.horas, h ∉ q.1.horas) st.2.1

lemma sim_invariant (num_canchas : Nat) : ∀ (infos : List InfoGrupo)
    (st : (Nat → List String) × List (InfoGrupo × Nat) × Bool),
    BuenEstado st →
    (infos.foldl (pasoSim num_canchas) st).2.2 = false →
    BuenEstado (infos.foldl (pasoSim num_canchas) st) := by
  intro infos
  induction infos with
  | nil => intro st h _; exact h
  | cons i is ih =>
    intro st hst hflag
    rw [List.foldl_cons] at hflag ⊢
    cases hb : buscaLibre st.1 num_canchas i.horas with
    | none =>
      exfalso
      have htrue : (pasoSim num_canchas st i).2.2 = true := by
        unfold pasoSim
        rw [hb]
      rw [sim_flag_mono num_canchas is _ htrue] at hflag
      cases hflag
    | some c =>
      have hlibre : ∀ h ∈ i.horas, h ∉ st.1 c := by
        unfold buscaLibre at hb
        have hfind := List.find?_some hb
        exact of_decide_eq_true hfind
      have hpaso : pasoSim num_canchas st i =
          (actualizaOcupadas st.1 c i.horas, st.2.1 ++ [(i, c)], st.2.2) := by
        unfold pasoSim
        rw [hb]
      rw [hpaso] at hflag ⊢
      apply ih
      · constructor
        · intro p hp h hh
          rcases List.mem_append.mp hp with hp' | hpnew
          · have hin := hst.1 p hp' h hh
            show h ∈ actualizaOcupadas st.1 c i.horas p.2
            unfold actualizaOcupadas
            by_cases hx : p.2 = c
            · rw [if_pos hx]
              exact List.mem_append_left _ hin
            · rw [if_neg hx]
              exact hin
          · obtain rfl : p = (i, c) := by simpa using hpnew
            show h ∈ actualizaOcupadas st.1 c i.horas c
            unfold actualizaOcupadas
            rw [if_pos rfl]
            exact List.mem_append_right _ hh
        · show List.Pairwise _ (st.2.1 ++ [(i, c)])
          rw [List.pairwise_append]
          refine ⟨hst.2, List.pairwise_singleton _ _, ?_⟩
          intro p hp q hq
          obtain rfl : q = (i, c) := by simpa using hq
          intro hpc h hh hh2
          have hoc := hst.1 p hp h hh
          rw [hpc] at hoc
          exact hlibre h hh2 hoc
      · exact hflag

lemma mem_of_idx {α : Type} {l : List α} {i : Nat} {x : α}
    (h : l[i]? = some x) : x ∈ l := by
  rw [List.getElem?_eq_some] at h
  obtain ⟨hi, rfl⟩ := h
  exact List.getElem_mem hi

lemma nodup_idx_inj {α : Type} {l : List α} (hnd : l.Nodup) {i j : Nat} {x : α}
    (hi : l[i]? = some x) (hj : l[j]? = some x) : i = j := by
  rw [List.getElem?_eq_some] at hi hj
  obtain ⟨hi1, hi2⟩ := hi
  obtain ⟨hj1, hj2⟩ := hj
  have hg : l.get ⟨i, hi1⟩ = l.get ⟨j, hj1⟩ := by
    rw [List.get_eq_getElem, List.get_eq_getElem]
    dsimp only
    rw [hi2, hj2]
  exact congrArg Fin.val (List.nodup_iff_injective_get.mp hnd hg)

/-- Every displayed-hours table of the scheduler is duplicate-free. -/
lemma franjasAHoras_nodup (f : String) : (franjasAHoras f).Nodup := by
  unfold franjasAHoras
  split_ifs <;> first | decide | exact List.nodup_singleton f

/-- Every collected pool's stored hours are exactly its slot's table row. -/
lemma gruposConInfo_horas {gpc : List (String × List Grupo)} {info : InfoGrupo}
    (h : info ∈ gruposConInfo gpc) : info.horas = franjasAHoras info.franja := by
  unfold gruposConInfo at h
  rw [List.mem_join] at h
  obtain ⟨l, hl, hmem⟩ := h
  rw [List.mem_map] at hl
  obtain ⟨cg, hcg, rfl⟩ := hl
  rw [List.mem_filterMap] at hmem
  obtain ⟨g, hg, hsome⟩ := hmem
  cases hfr : g.franja_horaria with
  | none => rw [hfr] at hsome; cases hsome
  | some fr =>
    rw [hfr] at hsome
    dsimp only at hsome
    obtain rfl := Option.some.inj hsome
    rfl

lemma lookupAsig_get (pairs : List (InfoGrupo × Nat))
    (hnd : (pairs.map (fun p => p.1.grupo.id)).Nodup) :
    ∀ k (hk : k < pairs.length),
    lookupAsig (pairs.map (fun p => (p.1.grupo.id, p.2))) pairs[k].1.grupo.id =
      some pairs[k].2 := by
  induction pairs with
  | nil => intro k hk; exact absurd hk (Nat.not_lt_zero k)
  | cons p rest ih =>
    intro k hk
    rw [List.map_cons, List.nodup_cons] at hnd
    cases k with
    | zero =>
      rw [List.getElem_cons_zero, List.map_cons]
      unfold lookupAsig
      rw [if_pos rfl]
    | succ k =>
      have hk' : k < rest.length := Nat.lt_of_succ_lt_succ hk
      rw [List.getElem_cons_succ, List.map_cons]
      have hm : rest[k] ∈ rest := List.getElem_mem hk'
      have hne : p.1.grupo.id ≠ rest[k].1.grupo.id := by
        intro heq
        apply hnd.1
        rw [heq]
        exact List.mem_map_of_mem _ hm
      unfold lookupAsig
      rw [if_neg hne]
      exact ih hnd.2 k hk'

lemma calendario_aux (infos : List InfoGrupo) (pairs : List (InfoGrupo × Nat))
    (hfst : pairs.map Prod.fst = infos)
    (hhoras : ∀ info ∈ infos, info.horas = franjasAHoras info.franja)
    (hids : (infos.map (fun i => i.grupo.id)).Nodup)
    (hdisj : List.Pairwise (fun p q : InfoGrupo × Nat =>
      p.2 = q.2 → ∀ h ∈ p.1.horas, h ∉ q.1.horas) pairs) :
    List.Pairwise (fun e1 e2 => ∀ cel, celda e1 = some cel → celda e2 ≠ some cel)
      ((infos.map (fun info =>
        (info.grupo.partidos.enum).map (fun ip =>
          ({ franja := info.franja, categoria := info.categoria,
             color := emojiCategoria info.categoria, grupo_id := info.grupo.id,
             cancha := (lookupAsig (pairs.map (fun p => (p.1.grupo.id, p.2)))
               info.grupo.id).getD 0,
             partido_num := ip.1 + 1,
             pareja1 := ip.2.1.nombre, pareja2 := ip.2.2.nombre,
             score_compatibilidad := info.grupo.score_compatibilidad }
            : EntradaCalendario)))).join) := by
  have hnd' : (pairs.map (fun p : InfoGrupo × Nat => p.1.grupo.id)).Nodup := by
    have hmm : pairs.map (fun p : InfoGrupo × Nat => p.1.grupo.id) =
        (pairs.map Prod.fst).map (fun i => i.grupo.id) := by
      rw [List.map_map]
      rfl
    rw [hmm, hfst]
    exact hids
  have hlen : pairs.length = infos.length := by
    rw [← hfst, List.length_map]
  rw [List.pairwise_join]
  constructor
  · intro blk hblk
    rw [List.mem_map] at hblk
    obtain ⟨info, hinfo, rfl⟩ := hblk
    rw [List.pairwise_map, List.pairwise_iff_getElem]
    intro a b ha hb hab
    intro cel hc1 hc2
    rw [List.getElem_enum] at hc1 hc2
    unfold celda at hc1 hc2
    dsimp only at hc1 hc2
    rw [Nat.add_sub_cancel, Option.map_eq_some'] at hc1 hc2
    obtain ⟨h1, hh1, he1⟩ := hc1
    obtain ⟨h2, hh2, he2⟩ := hc2
    rw [← he2] at he1
    have hhh : h1 = h2 := congrArg Prod.fst he1
    rw [hhh] at hh1
    exact absurd (nodup_idx_inj (franjasAHoras_nodup info.franja) hh1 hh2)
      (Nat.ne_of_lt hab)
  · rw [List.pairwise_map, List.pairwise_iff_getElem]
    intro k k' hk hk' hkk
    intro x hx y hy cel hcx hcy
    rw [List.mem_map] at hx hy
    obtain ⟨ipx, hipx, rfl⟩ := hx
    obtain ⟨ipy, hipy, rfl⟩ := hy
    have hkp : k < pairs.length := by rw [hlen]; exact hk
    have hkp' : k' < pairs.length := by rw [hlen]; exact hk'
    have hgetk : infos[k] = pairs[k].1 := by
      have h1 : infos[k]? = some infos[k] := List.getElem?_eq_some.mpr ⟨hk, rfl⟩
      have h2 : (pairs.map Prod.fst)[k]? = some pairs[k].1 := by
        rw [List.getElem?_map, List.getElem?_eq_some.mpr ⟨hkp, rfl⟩]
        rfl
      rw [hfst, h1] at h2
      exact Option.some.inj h2
    have hgetk' : infos[k'] = pairs[k'].1 := by
      have h1 : infos[k']? = some infos[k'] := List.getElem?_eq_some.mpr ⟨hk', rfl⟩
      have h2 : (pairs.map Prod.fst)[k']? = some pairs[k'].1 := by
        rw [List.getElem?_map, List.getElem?_eq_some.mpr ⟨hkp', rfl⟩]
        rfl
      rw [hfst, h1] at h2
      exact Option.some.inj h2
    unfold celda at hcx hcy
    dsimp only at hcx hcy
    rw [Nat.add_sub_cancel, Option.map_eq_some'] at hcx hcy
    obtain ⟨h1, hh1, he1⟩ := hcx
    obtain ⟨h2, hh2, he2⟩ := hcy
    rw [← he2] at he1
    have hCk : (lookupAsig (pairs.map (fun p => (p.1.grupo.id, p.2)))
        infos[k].grupo.id).getD 0 = pairs[k].2 := by
      rw [hgetk, lookupAsig_get pairs hnd' k hkp]
      rfl
    have hCk' : (lookupAsig (pairs.map (fun p => (p.1.grupo.id, p.2)))
        infos[k'].grupo.id).getD 0 = pairs[k'].2 := by
      rw [hgetk', lookupAsig_get pairs hnd' k' hkp']
      rfl
    rw [hCk, hCk'] at he1
    injection he1 with hhh hcc
    have hDk := List.pairwise_iff_getElem.mp hdisj k k' hkp hkp' hkk
    have hm1 : h1 ∈ pairs[k].1.horas := by
      rw [← hgetk, hhoras infos[k] (List.getElem_mem hk)]
      exact mem_of_idx hh1
    have hm2 : h1 ∈ pairs[k'].1.horas := by
      rw [← hgetk', hhoras infos[k'] (List.getElem_mem hk')]
      rw [hhh]
      exact mem_of_idx hh2
    exact hDk hcc h1 hm1 hm2

/-- C9 (amended): whenever the pool ids are distinct and the
fewest-conflicts fallback never fires during the run (every pool gets a
court that is free for all its hours), the produced calendar places no two
matches in the same (day-hour, court) cell.  The fallback itself breaks
the claim as stated, see the counterexample. -/
theorem generar_calendario_sin_colisiones (gpc : List (String × List Grupo))
    (num_canchas : Nat)
    (hids : ((gruposConInfo gpc).map (fun i => i.grupo.id)).Nodup)
    (hflag : (asignarSim (gruposConInfo gpc) num_canchas).2.2 = false) :
    List.Pairwise (fun e1 e2 => ∀ cel, celda e1 = some cel → celda e2 ≠ some cel)
      (generar_calendario gpc num_canchas) := by
  have hbase : BuenEstado ((fun _ => ([] : List String)),
      ([] : List (InfoGrupo × Nat)), false) := by
    constructor
    · intro p hp
      cases hp
    · exact List.Pairwise.nil
  have hbuen : BuenEstado (asignarSim (gruposConInfo gpc) num_canchas) :=
    sim_invariant num_canchas (gruposConInfo gpc) _ hbase hflag
  have hfst : ((asignarSim (gruposConInfo gpc) num_canchas).2.1).map Prod.fst =
      gruposConInfo gpc := by
    have h := sim_pairs_fst num_canchas (gruposConInfo gpc)
      ((fun _ => []), [], false)
    simpa using h
  have hhoras : ∀ info ∈ gruposConInfo gpc,
      info.horas = franjasAHoras info.franja :=
    fun info h => gruposConInfo_horas h
  unfold generar_calendario
  dsimp only
  rw [asignar_canchas_eq_sim]
  dsimp only
  exact calendario_aux (gruposConInfo gpc)
    ((asignarSim (gruposConInfo gpc) num_canchas).2.1) hfst hhoras hids hbuen.2

/-- Witness for the amended C9: two pools, two courts, the fallback never
fires, and indeed no two calendar entries share a cell. -/
theorem generar_calendario_sin_colisiones_witness :
    List.Pairwise (fun e1 e2 => ∀ cel, celda e1 = some cel → celda e2 ≠ some cel)
      (generar_calendario [("Cuarta", [grupoCal 1 1 2 3, grupoCal 2 4 5 6])] 2) :=
  generar_calendario_sin_colisiones _ 2 (by decide) (by rfl)

end Torneo
